import Mathlib

/-!
Verification of the intake correlation engine of the sparq-burnin repository.

The engine consists of two Python scripts:
  * `scripts/copy_filtered_files.py` — the batch variant (namespace `CopyFiltered`);
  * `scripts/watchdog.py` — the polling loop (namespace `Watchdog`).

The shallow embedding below translates, from the source:
  * the filename codecs `parse_results_file` / `parse_test_file` of both
    scripts, including the Python `re` patterns and `datetime.strptime`
    validation (with `\d` modelled as an ASCII digit and the calendar
    validation of the `datetime` constructor made explicit);
  * the attribute sniffer `check_firmware_version` of the batch script,
    over the parsed CSV rows of the file (the `csv.reader` row structure is
    taken as input; an unreadable file is the `none` case, matching the
    `except Exception` handler);
  * the per-result-file body of each `main` loop, as a pure function from
    an explicit filesystem state (the four staging/archive listings) to a
    decision plus the list of copy operations performed.

Timestamps are compared through `Datetime.toSec`, the proleptic Gregorian
second count used by CPython (`_ymd2ord`); on calendar-valid datetimes —
and every datetime produced by the parsers is calendar-valid — this order
agrees with the field-lexicographic order that Python `datetime` comparison
uses, and `S >= T - timedelta(days=3)` is `T.toSec ≤ S.toSec + 259200`.
-/

/-- Calendar timestamp, the fields of a Python `datetime`. -/
structure Datetime where
  year : Nat
  month : Nat
  day : Nat
  hour : Nat
  minute : Nat
  second : Nat
  deriving DecidableEq

/-- Gregorian leap-year rule, as in CPython `_is_leap`. -/
def isLeap (y : Nat) : Bool :=
  (y % 4 == 0 && y % 100 != 0) || y % 400 == 0

/-- Days in a month, as in CPython `_days_in_month`. -/
def daysInMonth (y m : Nat) : Nat :=
  if m = 2 then (if isLeap y then 29 else 28)
  else if m = 4 ∨ m = 6 ∨ m = 9 ∨ m = 11 then 30
  else 31

/-- Days before January 1 of a year, as in CPython `_days_before_year`. -/
def daysBeforeYear (y : Nat) : Nat :=
  let n := y - 1
  n * 365 + n / 4 - n / 100 + n / 400

/-- Days before the first of a month, as in CPython `_days_before_month`. -/
def daysBeforeMonth (y m : Nat) : Nat :=
  (List.range (m - 1)).foldl (fun a i => a + daysInMonth y (i + 1)) 0

/-- Proleptic Gregorian ordinal, as in CPython `_ymd2ord` (Jan 1 of year 1 is 1). -/
def Datetime.toOrdinal (d : Datetime) : Nat :=
  daysBeforeYear d.year + daysBeforeMonth d.year d.month + d.day

/-- Seconds since 0001-01-01 00:00:00; the order embedding through which the
Python `datetime` comparisons and `timedelta` arithmetic of the scripts are
modelled. -/
def Datetime.toSec (d : Datetime) : Nat :=
  (d.toOrdinal - 1) * 86400 + d.hour * 3600 + d.minute * 60 + d.second

/-- The validity condition enforced by the Python `datetime` constructor. -/
def validDatetime (d : Datetime) : Bool :=
  1 ≤ d.year && d.year ≤ 9999 && 1 ≤ d.month && d.month ≤ 12 &&
  1 ≤ d.day && d.day ≤ daysInMonth d.year d.month &&
  d.hour ≤ 23 && d.minute ≤ 59 && d.second ≤ 59

/-! ## Character-level parsing helpers -/

/-- Consume one expected literal character. -/
def expectC (c : Char) : List Char → Option (List Char)
  | [] => none
  | x :: r => if x = c then some r else none

/-- Consume one digit (`\d` of the Python patterns, modelled as an ASCII digit). -/
def expectDig : List Char → Option (List Char)
  | [] => none
  | x :: r => if x.isDigit then some r else none

/-- Leading run of digits and the rest, as the `re` digit groups consume it. -/
def spanDigits : List Char → List Char × List Char
  | [] => ([], [])
  | c :: r =>
    if c.isDigit then
      let p := spanDigits r
      (c :: p.1, p.2)
    else ([], c :: r)

/-- Numeric value of a digit list (most significant first). -/
def digitsVal (ds : List Char) : Nat :=
  ds.foldl (fun a c => 10 * a + (c.toNat - 48)) 0

/-- The `%Y` directive: exactly four digits (CPython `_strptime` uses `\d\d\d\d`). -/
def yearField (cs : List Char) : Option (Nat × List Char) :=
  match spanDigits cs with
  | ([a, b, c, d], rest) => some (digitsVal [a, b, c, d], rest)
  | _ => none

/-- A one-or-two-digit numeric directive of `_strptime` (`%m`, `%d`, `%H`, `%M`,
`%S`): a digit run of length one with value at least `lo`, or of length two
with value between `lo` and `hi`. -/
def fld (lo hi : Nat) (cs : List Char) : Option (Nat × List Char) :=
  match spanDigits cs with
  | ([a], rest) =>
    if lo ≤ a.toNat - 48 then some (a.toNat - 48, rest) else none
  | ([a, b], rest) =>
    let v := 10 * (a.toNat - 48) + (b.toNat - 48)
    if lo ≤ v ∧ v ≤ hi then some (v, rest) else none
  | _ => none

/-- Drop any further whitespace after the first. -/
def dropWs : List Char → List Char
  | [] => []
  | c :: r => if c.isWhitespace then dropWs r else c :: r

/-- A literal space in a `strptime` format: `\s+`. -/
def wsField : List Char → Option (List Char)
  | [] => none
  | c :: r => if c.isWhitespace then some (dropWs r) else none

/-- Model of `datetime.strptime(s, '%Y-%m-%d %H-%M' + msep + '%S')` — the two
format strings used by the scripts differ only in the separator before the
seconds (`'-'` in the seconds-present branches, `':'` where `':00'` is
appended).  The trailing condition is the full-match requirement of
`_strptime` plus the range checks of the `datetime` constructor. -/
def strptimeFields (msep : Char) (cs : List Char) : Option Datetime :=
  (yearField cs).bind fun yr =>
  (expectC '-' yr.2).bind fun r2 =>
  (fld 1 12 r2).bind fun mo =>
  (expectC '-' mo.2).bind fun r4 =>
  (fld 1 31 r4).bind fun dy =>
  (wsField dy.2).bind fun r6 =>
  (fld 0 23 r6).bind fun hr =>
  (expectC '-' hr.2).bind fun r8 =>
  (fld 0 59 r8).bind fun mi =>
  (expectC msep mi.2).bind fun r10 =>
  (fld 0 61 r10).bind fun sc =>
  if sc.2 = [] ∧ 1 ≤ yr.1 ∧ yr.1 ≤ 9999 ∧ dy.1 ≤ daysInMonth yr.1 mo.1 ∧ sc.1 ≤ 59 then
    some ⟨yr.1, mo.1, dy.1, hr.1, mi.1, sc.1⟩
  else none

/-! ## The filename regular expressions

The four patterns of the scripts all have the shape
`^(prefix)(.+)_<date>_<time>\.csv$` with a fixed-width tail, so a match is
equivalent to: the reversed name starts with the reversed tail, and what
remains is a nonempty group (`.+` — no newline) preceded by the literal
prefix.  The matchers below consume the reversed tail. -/

/-- Reversed `\d{2}-\d{2}-\d{2}` (the seconds-present time field). -/
def revTimeSec (cs : List Char) : Option (List Char) :=
  (expectDig cs).bind fun a =>
  (expectDig a).bind fun b =>
  (expectC '-' b).bind fun c =>
  (expectDig c).bind fun d =>
  (expectDig d).bind fun e =>
  (expectC '-' e).bind fun f =>
  (expectDig f).bind expectDig

/-- Reversed `\d{2}-\d{2}` (the seconds-absent time field). -/
def revTimeNoSec (cs : List Char) : Option (List Char) :=
  (expectDig cs).bind fun a =>
  (expectDig a).bind fun b =>
  (expectC '-' b).bind fun c =>
  (expectDig c).bind expectDig

/-- Reversed `\d{4}-\d{2}-\d{2}` (the date field). -/
def revDate (cs : List Char) : Option (List Char) :=
  (expectDig cs).bind fun a =>
  (expectDig a).bind fun b =>
  (expectC '-' b).bind fun c =>
  (expectDig c).bind fun d =>
  (expectDig d).bind fun e =>
  (expectC '-' e).bind fun f =>
  (expectDig f).bind fun g =>
  (expectDig g).bind fun h =>
  (expectDig h).bind expectDig

/-- Reversed `_\d{4}-\d{2}-\d{2}_\d{2}-\d{2}-\d{2}\.csv` tail. -/
def revTailSec (cs : List Char) : Option (List Char) :=
  (expectC 'v' cs).bind fun r1 =>
  (expectC 's' r1).bind fun r2 =>
  (expectC 'c' r2).bind fun r3 =>
  (expectC '.' r3).bind fun r4 =>
  (revTimeSec r4).bind fun r5 =>
  (expectC '_' r5).bind fun r6 =>
  (revDate r6).bind (expectC '_')

/-- Reversed `_\d{4}-\d{2}-\d{2}_\d{2}-\d{2}\.csv` tail. -/
def revTailNoSec (cs : List Char) : Option (List Char) :=
  (expectC 'v' cs).bind fun r1 =>
  (expectC 's' r1).bind fun r2 =>
  (expectC 'c' r2).bind fun r3 =>
  (expectC '.' r3).bind fun r4 =>
  (revTimeNoSec r4).bind fun r5 =>
  (expectC '_' r5).bind fun r6 =>
  (revDate r6).bind (expectC '_')

/-- The `(.+)` group: nonempty, no newline (`.` of `re` does not match `\n`). -/
def stemOkFwd (stem : List Char) : Bool :=
  !stem.isEmpty && stem.all (fun c => c != '\n')

/-- The literal prefix of the test-file patterns. -/
def invPrefix : List Char :=
  ['i', 'n', 'v', 'e', 'r', 't', 'e', 'r', '_']

/-- Model of `re.match(r'^(.+)_\d{4}-\d{2}-\d{2}_\d{2}-\d{2}-\d{2}\.csv$', s)`
viewed as a boolean (the scripts discard the groups and re-split). -/
def resultsRegexSec (cs : List Char) : Bool :=
  match revTailSec cs.reverse with
  | some stemRev => stemOkFwd stemRev.reverse
  | none => false

/-- Model of `re.match(r'^(.+)_\d{4}-\d{2}-\d{2}_\d{2}-\d{2}\.csv$', s)`. -/
def resultsRegexNoSec (cs : List Char) : Bool :=
  match revTailNoSec cs.reverse with
  | some stemRev => stemOkFwd stemRev.reverse
  | none => false

/-- Model of `re.match(r'^inverter_(.+)_\d{4}-\d{2}-\d{2}_\d{2}-\d{2}-\d{2}\.csv$', s)`. -/
def testRegexSec (cs : List Char) : Bool :=
  match revTailSec cs.reverse with
  | some restRev =>
    (restRev.reverse.take 9 == invPrefix) && stemOkFwd (restRev.reverse.drop 9)
  | none => false

/-- Model of `re.match(r'^inverter_(.+)_\d{4}-\d{2}-\d{2}_\d{2}-\d{2}\.csv$', s)`. -/
def testRegexNoSec (cs : List Char) : Bool :=
  match revTailNoSec cs.reverse with
  | some restRev =>
    (restRev.reverse.take 9 == invPrefix) && stemOkFwd (restRev.reverse.drop 9)
  | none => false

/-! ## `os.path.splitext` and `str.split` -/

/-- Characters strictly before the last `'.'` of the reversed input, or `none`
when there is no dot. -/
def dropUntilDot : List Char → Option (List Char)
  | [] => none
  | c :: r => if c = '.' then some r else dropUntilDot r

/-- Model of `os.path.splitext(filename)[0]`: everything before the last dot,
except that a name whose characters before that dot are all dots (leading-dots
special case of `splitext`) is returned whole. -/
def splitextBase (cs : List Char) : List Char :=
  match dropUntilDot cs.reverse with
  | none => cs
  | some preRev =>
    if preRev.reverse.all (fun c => c == '.') then cs else preRev.reverse

/-- Model of Python `str.split(sep)` for a single-character separator: empty
parts are kept, nothing is collapsed. -/
def splitOnChar (sep : Char) : List Char → List (List Char)
  | [] => [[]]
  | c :: rest =>
    let r := splitOnChar sep rest
    if c = sep then [] :: r
    else
      match r with
      | h :: t => (c :: h) :: t
      | [] => [[c]]

/-! ## The four parse branches

Each regex branch of the Python parsers re-derives its fields by
`os.path.splitext` followed by `base.split('_')` and indexing — so a device
identifier containing an underscore shifts all the parts.  The `getD`
defaults are unreachable: a matching name always splits into enough parts. -/

/-- Seconds-present result branch: `sn, date, time = parts[0], parts[1], parts[2]`,
then `strptime(date + ' ' + time, '%Y-%m-%d %H-%M-%S')`. -/
def parseResultSecBranch (cs : List Char) : Option (String × Datetime) :=
  let parts := splitOnChar '_' (splitextBase cs)
  match strptimeFields '-' (parts.getD 1 [] ++ ' ' :: parts.getD 2 []) with
  | some t => some (⟨parts.getD 0 []⟩, t)
  | none => none

/-- Seconds-absent result branch: `strptime(date + ' ' + time + ':00',
'%Y-%m-%d %H-%M:%S')`. -/
def parseResultNoSecBranch (cs : List Char) : Option (String × Datetime) :=
  let parts := splitOnChar '_' (splitextBase cs)
  match strptimeFields ':' (parts.getD 1 [] ++ ' ' :: (parts.getD 2 [] ++ [':', '0', '0'])) with
  | some t => some (⟨parts.getD 0 []⟩, t)
  | none => none

/-- Seconds-present test branch: `sn, date, time = parts[1], parts[2], parts[3]`. -/
def parseTestSecBranch (cs : List Char) : Option (String × Datetime) :=
  let parts := splitOnChar '_' (splitextBase cs)
  match strptimeFields '-' (parts.getD 2 [] ++ ' ' :: parts.getD 3 []) with
  | some t => some (⟨parts.getD 1 []⟩, t)
  | none => none

/-- Seconds-absent test branch. -/
def parseTestNoSecBranch (cs : List Char) : Option (String × Datetime) :=
  let parts := splitOnChar '_' (splitextBase cs)
  match strptimeFields ':' (parts.getD 2 [] ++ ' ' :: (parts.getD 3 [] ++ [':', '0', '0'])) with
  | some t => some (⟨parts.getD 1 []⟩, t)
  | none => none

namespace Watchdog

/-- `watchdog.py parse_results_file`: tries the seconds-present pattern first,
then the seconds-absent one; a pattern match whose fields fail `strptime`
returns `None` without trying the other pattern. -/
def parse_results_file (filename : String) : Option (String × Datetime) :=
  if resultsRegexSec filename.data then parseResultSecBranch filename.data
  else if resultsRegexNoSec filename.data then parseResultNoSecBranch filename.data
  else none

/-- `watchdog.py parse_test_file`. -/
def parse_test_file (filename : String) : Option (String × Datetime) :=
  if testRegexSec filename.data then parseTestSecBranch filename.data
  else if testRegexNoSec filename.data then parseTestNoSecBranch filename.data
  else none

end Watchdog

namespace CopyFiltered

/-- `copy_filtered_files.py parse_results_file`: only the seconds-present
pattern exists in the batch script. -/
def parse_results_file (filename : String) : Option (String × Datetime) :=
  if resultsRegexSec filename.data then parseResultSecBranch filename.data
  else none

/-- `copy_filtered_files.py parse_test_file`: only the seconds-absent pattern
exists in the batch script. -/
def parse_test_file (filename : String) : Option (String × Datetime) :=
  if testRegexNoSec filename.data then parseTestNoSecBranch filename.data
  else none

end CopyFiltered

/-! ## Attribute sniffer (`check_firmware_version`, batch script only) -/

/-- Model of Python `str.strip()`: whitespace removed from both ends. -/
def pyStrip (s : String) : String :=
  ⟨((s.data.dropWhile Char.isWhitespace).reverse.dropWhile Char.isWhitespace).reverse⟩

/-- The data-row scan of `check_firmware_version`: rows with at most three
columns are passed over (the `break` sits inside `if len(row) > 3`), and the
first row with more than three columns decides — `True` exactly when its
column 3, stripped, equals the excluded value. -/
def checkRows (excl : String) : List (List String) → Bool
  | [] => false
  | row :: rest =>
    if row.length > 3 then pyStrip (row.getD 3 "") == excl
    else checkRows excl rest

/-- `copy_filtered_files.py check_firmware_version`, over the CSV rows of the
file: `none` stands for a file whose open or read raises (the
`except Exception` handler returns `False`), `some []` for an empty file
(`next(reader)` raises `StopIteration`, also caught), and otherwise the header
row is skipped and must have more than three columns before any data row is
examined. -/
def CopyFiltered.check_firmware_version (excl : String)
    (content : Option (List (List String))) : Bool :=
  match content with
  | none => false
  | some [] => false
  | some (headers :: rows) =>
    if headers.length > 3 then checkRows excl rows
    else false

/-! ## Filesystem state, decisions and the per-file loop bodies -/

/-- Model of Python `str.endswith('.csv')`. -/
def endsWithCsv (s : String) : Bool :=
  ['.', 'c', 's', 'v'].isSuffixOf s.data

/-- The four listings the scripts consult: the two staging sub-areas the
engine appends to, and the two archive sub-areas the downstream pipeline
owns. -/
structure FsState where
  toProcessResults : List String
  processedResults : List String
  toProcessTests : List String
  processedTests : List String
  deriving DecidableEq

/-- A copy performed by a loop body (`shutil.copy2` into a staging sub-area). -/
inductive WriteOp where
  | copyToTests (name : String)
  | copyToResults (name : String)
  deriving DecidableEq

/-- How one result file is disposed of by a loop body. -/
inductive Decision where
  | ignoredNonCsv
  | alreadyExists
  | unparsed
  | skippedDate
  | skippedFirmware
  | noMatch
  | outOfWindow
  | stagedBoth
  | stagedResultOnly
  deriving DecidableEq

/-- Decision together with the filesystem writes the branch performed. -/
structure Outcome where
  decision : Decision
  writes : List WriteOp
  deriving DecidableEq

/-- Effect of one copy on the staging listings. -/
def applyWrite (st : FsState) : WriteOp → FsState
  | .copyToTests n => { st with toProcessTests := n :: st.toProcessTests }
  | .copyToResults n => { st with toProcessResults := n :: st.toProcessResults }

/-- Effect of a list of copies. -/
def applyWrites (st : FsState) (ops : List WriteOp) : FsState :=
  ops.foldl applyWrite st

/-- Python `max(candidates, key=lambda x: x[1])`: the first element whose key
no later element strictly exceeds (`max` keeps the earlier element on ties). -/
def pyMaxByTs (l : List (String × Datetime)) : Option (String × Datetime) :=
  match l with
  | [] => none
  | x :: xs => some (xs.foldl (fun cur y => if cur.2.toSec < y.2.toSec then y else cur) x)

namespace Watchdog

/-- The candidate collection of the polling loop: every file of the data
directory is parsed (no `.csv` pre-filter), and kept when the device matches
and `test_info[1] <= T`. -/
def testCandidates (sn : String) (T : Datetime) (dataFiles : List String) :
    List (String × Datetime) :=
  dataFiles.filterMap fun tf =>
    match parse_test_file tf with
    | some p => if p.1 = sn ∧ p.2.toSec ≤ T.toSec then some (tf, p.2) else none
    | none => none

/-- The per-result-file body of the `watchdog.py` main loop: presence check in
`processed/results` and `to_process/results`, parse, candidate matching,
three-day window check (`S >= T - timedelta(days=3)`), then the intake gate
on the matched test file. -/
def processFile (st : FsState) (dataFiles : List String) (file : String) : Outcome :=
  if file ∈ st.processedResults ∨ file ∈ st.toProcessResults then
    ⟨.alreadyExists, []⟩
  else
    match parse_results_file file with
    | none => ⟨.unparsed, []⟩
    | some (sn, T) =>
      match pyMaxByTs (testCandidates sn T dataFiles) with
      | none => ⟨.noMatch, []⟩
      | some (tf, S) =>
        if T.toSec ≤ S.toSec + 259200 then
          if ¬ (tf ∈ st.toProcessTests ∨ tf ∈ st.processedTests) then
            ⟨.stagedBoth, [.copyToTests tf, .copyToResults file]⟩
          else
            ⟨.stagedResultOnly, [.copyToResults file]⟩
        else ⟨.outOfWindow, []⟩

end Watchdog

namespace CopyFiltered

/-- The candidate collection of the batch script: files are pre-filtered by
`endswith('.csv')`, and kept when the device matches and `test_info[1] < T`
(strict, unlike the polling loop). -/
def testCandidates (sn : String) (T : Datetime) (dataFiles : List String) :
    List (String × Datetime) :=
  dataFiles.filterMap fun tf =>
    if ¬ endsWithCsv tf then none
    else
      match parse_test_file tf with
      | some p => if p.1 = sn ∧ p.2.toSec < T.toSec then some (tf, p.2) else none
      | none => none

/-- The per-result-file body of the `copy_filtered_files.py` main loop:
`.csv` filter, presence check, parse, the cutoff-date filter
(`T <= CUTOFF_DATE`), the firmware filter, candidate matching, window check,
then the intake gate. -/
def processFile (CUTOFF : Datetime) (excl : String)
    (content : Option (List (List String))) (st : FsState)
    (dataFiles : List String) (file : String) : Outcome :=
  if ¬ endsWithCsv file then ⟨.ignoredNonCsv, []⟩
  else if file ∈ st.processedResults ∨ file ∈ st.toProcessResults then
    ⟨.alreadyExists, []⟩
  else
    match parse_results_file file with
    | none => ⟨.unparsed, []⟩
    | some (sn, T) =>
      if T.toSec ≤ CUTOFF.toSec then ⟨.skippedDate, []⟩
      else if check_firmware_version excl content then ⟨.skippedFirmware, []⟩
      else
        match pyMaxByTs (testCandidates sn T dataFiles) with
        | none => ⟨.noMatch, []⟩
        | some (tf, S) =>
          if T.toSec ≤ S.toSec + 259200 then
            if ¬ (tf ∈ st.toProcessTests ∨ tf ∈ st.processedTests) then
              ⟨.stagedBoth, [.copyToTests tf, .copyToResults file]⟩
            else
              ⟨.stagedResultOnly, [.copyToResults file]⟩
          else ⟨.outOfWindow, []⟩

end CopyFiltered

/-! ## Filename encoders

Modelled from the spec: the bit-exact external filename formats
`<DeviceId>_<YYYY-MM-DD>_<HH-MM[-SS]>.csv` and
`inverter_<DeviceId>_<YYYY-MM-DD>_<HH-MM[-SS]>.csv` (the names are produced
by external equipment, not by the scripts); used to state the codec
round-trip claims. -/

/-- Two-digit zero-padded field. -/
def pad2 (n : Nat) : List Char :=
  [Nat.digitChar (n / 10), Nat.digitChar (n % 10)]

/-- Four-digit zero-padded field. -/
def pad4 (n : Nat) : List Char :=
  [Nat.digitChar (n / 1000), Nat.digitChar (n / 100 % 10),
   Nat.digitChar (n / 10 % 10), Nat.digitChar (n % 10)]

/-- `YYYY-MM-DD`. -/
def dateChars (d : Datetime) : List Char :=
  pad4 d.year ++ '-' :: (pad2 d.month ++ '-' :: pad2 d.day)

/-- `HH-MM-SS`. -/
def timeSecChars (d : Datetime) : List Char :=
  pad2 d.hour ++ '-' :: (pad2 d.minute ++ '-' :: pad2 d.second)

/-- `HH-MM`. -/
def timeNoSecChars (d : Datetime) : List Char :=
  pad2 d.hour ++ '-' :: pad2 d.minute

/-- Result filename, seconds-present form. -/
def mkResultNameSec (sn : String) (d : Datetime) : String :=
  ⟨sn.data ++ '_' :: (dateChars d ++ '_' :: (timeSecChars d ++ ['.', 'c', 's', 'v']))⟩

/-- Result filename, seconds-absent form. -/
def mkResultNameNoSec (sn : String) (d : Datetime) : String :=
  ⟨sn.data ++ '_' :: (dateChars d ++ '_' :: (timeNoSecChars d ++ ['.', 'c', 's', 'v']))⟩

/-- Session filename, seconds-present form. -/
def mkTestNameSec (sn : String) (d : Datetime) : String :=
  ⟨invPrefix ++ (sn.data ++ '_' :: (dateChars d ++ '_' :: (timeSecChars d ++ ['.', 'c', 's', 'v'])))⟩

/-- Session filename, seconds-absent form. -/
def mkTestNameNoSec (sn : String) (d : Datetime) : String :=
  ⟨invPrefix ++ (sn.data ++ '_' :: (dateChars d ++ '_' :: (timeNoSecChars d ++ ['.', 'c', 's', 'v'])))⟩

/-! ## Helper lemmas -/

/-- A scan over rows that all have at most three columns finds nothing. -/
lemma checkRows_of_short (excl : String) (rows : List (List String))
    (h : ∀ r ∈ rows, r.length ≤ 3) : checkRows excl rows = false := by
  induction rows with
  | nil => rfl
  | cons row rest ih =>
    have hr := h row (List.mem_cons_self row rest)
    simp only [checkRows, if_neg (by omega : ¬ row.length > 3)]
    exact ih (fun r hrr => h r (List.mem_cons_of_mem row hrr))

/-! ## C8 -/

/-- C8: the attribute sniffer is fail-open: an unreadable file (`none`), an
empty file (`some []`), a header row with at most three columns, or data rows
that all have at most three columns, each yield `false` (not excluded); the
`except Exception` handler means no error reaches the caller. -/
theorem c8_sniffer_fail_open (excl : String) (content : Option (List (List String)))
    (h : content = none ∨ content = some [] ∨
      ∃ headers rows, content = some (headers :: rows) ∧
        (headers.length ≤ 3 ∨ ∀ r ∈ rows, r.length ≤ 3)) :
    CopyFiltered.check_firmware_version excl content = false := by
  rcases h with h | h | ⟨headers, rows, h, hcase⟩
  · rw [h]; rfl
  · rw [h]; rfl
  · rw [h]
    rcases hcase with hh | hr
    · simp only [CopyFiltered.check_firmware_version, if_neg (by omega : ¬ headers.length > 3)]
    · by_cases hlen : headers.length > 3
      · simp only [CopyFiltered.check_firmware_version, if_pos hlen]
        exact checkRows_of_short excl rows hr
      · simp only [CopyFiltered.check_firmware_version, if_neg hlen]

/-- C8 witness: the unreadable-file case at a concrete input. -/
theorem c8_sniffer_fail_open_witness :
    ((none : Option (List (List String))) = none ∨
      (none : Option (List (List String))) = some [] ∨
      ∃ headers rows, (none : Option (List (List String))) = some (headers :: rows) ∧
        (headers.length ≤ 3 ∨ ∀ r ∈ rows, r.length ≤ 3)) ∧
    CopyFiltered.check_firmware_version "1.0.0-debug" none = false :=
  ⟨Or.inl rfl, c8_sniffer_fail_open "1.0.0-debug" none (Or.inl rfl)⟩

/-! ## C10 -/

/-- C10: the exclusion check is gated on the width of the header row: when the
header has at most three columns the function returns `false` without looking
at any data row, even when the first data row has more than three columns and
carries exactly the excluded value at column index 3. -/
theorem c10_header_width_gates_exclusion (excl : String) (headers row : List String)
    (rows : List (List String)) (hh : headers.length ≤ 3) (hr : 3 < row.length)
    (hv : pyStrip (row.getD 3 "") = excl) :
    CopyFiltered.check_firmware_version excl (some (headers :: row :: rows)) = false := by
  simp only [CopyFiltered.check_firmware_version, if_neg (by omega : ¬ headers.length > 3)]

/-- C10 witness: a three-column header hides an excluded first data row. -/
theorem c10_header_width_gates_exclusion_witness :
    (["a", "b", "c"].length ≤ 3 ∧ 3 < ["w", "x", "y", "1.0.0-debug"].length ∧
      pyStrip (["w", "x", "y", "1.0.0-debug"].getD 3 "") = "1.0.0-debug") ∧
    CopyFiltered.check_firmware_version "1.0.0-debug"
      (some [["a", "b", "c"], ["w", "x", "y", "1.0.0-debug"]]) = false :=
  ⟨⟨by decide, by decide, by decide⟩,
   c10_header_width_gates_exclusion "1.0.0-debug" ["a", "b", "c"]
     ["w", "x", "y", "1.0.0-debug"] [] (by decide) (by decide) (by decide)⟩

/-! ## C2 -/

/-- C2 counterexample: the claim says an excluded-attribute result file is
never staged in both the batch variant and the polling loop.  The polling
loop (`watchdog.py`) performs no attribute check at all — its loop body does
not read the file content — so a result file whose CSV content carries
exactly the excluded firmware value at column index 3 of the first data row
is nevertheless staged (`stagedBoth`), with both copies performed. -/
theorem c2_watchdog_stages_excluded_file :
    CopyFiltered.check_firmware_version "9.9.9-debug"
      (some [["a", "b", "c", "d"], ["x", "y", "z", "9.9.9-debug"]]) = true ∧
    Watchdog.processFile ⟨[], [], [], []⟩ ["inverter_DEV1_2025-07-18_09-00.csv"]
      "DEV1_2025-07-20_10-00-00.csv" =
    ⟨.stagedBoth, [.copyToTests "inverter_DEV1_2025-07-18_09-00.csv",
                   .copyToResults "DEV1_2025-07-20_10-00-00.csv"]⟩ := by
  constructor
  · decide
  · decide

/-- C2 amended: only the batch variant enforces the exclusion attribute — a
result file whose attribute equals the excluded value is never staged by
`copy_filtered_files.py` (no write is performed and no staging decision is
reached); the polling loop stages such files and defers their removal to the
downstream cleanup command. -/
theorem c2_batch_excluded_never_staged (CUTOFF : Datetime) (excl : String)
    (content : Option (List (List String))) (st : FsState)
    (dataFiles : List String) (file : String)
    (h : CopyFiltered.check_firmware_version excl content = true) :
    (CopyFiltered.processFile CUTOFF excl content st dataFiles file).writes = [] ∧
    (CopyFiltered.processFile CUTOFF excl content st dataFiles file).decision ≠ .stagedBoth ∧
    (CopyFiltered.processFile CUTOFF excl content st dataFiles file).decision ≠ .stagedResultOnly := by
  simp only [CopyFiltered.processFile]
  repeat' split
  all_goals exact ⟨rfl, by decide, by decide⟩

/-- C2 witness for the amended claim, at a concrete excluded input. -/
theorem c2_batch_excluded_never_staged_witness :
    CopyFiltered.check_firmware_version "9.9.9-debug"
      (some [["a", "b", "c", "d"], ["x", "y", "z", "9.9.9-debug"]]) = true ∧
    (CopyFiltered.processFile ⟨2024, 1, 1, 0, 0, 0⟩ "9.9.9-debug"
        (some [["a", "b", "c", "d"], ["x", "y", "z", "9.9.9-debug"]])
        ⟨[], [], [], []⟩ ["inverter_DEV1_2025-07-18_09-00.csv"]
        "DEV1_2025-07-20_10-00-00.csv").writes = [] ∧
    (CopyFiltered.processFile ⟨2024, 1, 1, 0, 0, 0⟩ "9.9.9-debug"
        (some [["a", "b", "c", "d"], ["x", "y", "z", "9.9.9-debug"]])
        ⟨[], [], [], []⟩ ["inverter_DEV1_2025-07-18_09-00.csv"]
        "DEV1_2025-07-20_10-00-00.csv").decision ≠ .stagedBoth ∧
    (CopyFiltered.processFile ⟨2024, 1, 1, 0, 0, 0⟩ "9.9.9-debug"
        (some [["a", "b", "c", "d"], ["x", "y", "z", "9.9.9-debug"]])
        ⟨[], [], [], []⟩ ["inverter_DEV1_2025-07-18_09-00.csv"]
        "DEV1_2025-07-20_10-00-00.csv").decision ≠ .stagedResultOnly := by
  refine ⟨by decide, ?_⟩
  exact c2_batch_excluded_never_staged ⟨2024, 1, 1, 0, 0, 0⟩ "9.9.9-debug"
    (some [["a", "b", "c", "d"], ["x", "y", "z", "9.9.9-debug"]])
    ⟨[], [], [], []⟩ ["inverter_DEV1_2025-07-18_09-00.csv"]
    "DEV1_2025-07-20_10-00-00.csv" (by decide)

/-! ## C9 -/

/-- C9: the cutoff-date filter exists only in the batch variant.  In
`copy_filtered_files.py`, a result file whose parsed timestamp is at or
before the cutoff (`T <= CUTOFF_DATE`) is dropped before the firmware check
and the matching step — the body performs no write and its decision is one of
the three pre-matching skips — while `watchdog.py` has no such filter: at a
concrete input whose timestamp lies before the cutoff and which has a
within-window session match, the batch variant answers `skippedDate` and the
polling loop stages both files. -/
theorem c9_cutoff_only_in_batch (CUTOFF : Datetime) (excl : String)
    (content : Option (List (List String))) (st : FsState)
    (dataFiles : List String) (file sn : String) (T : Datetime)
    (hp : CopyFiltered.parse_results_file file = some (sn, T))
    (hc : T.toSec ≤ CUTOFF.toSec) :
    ((CopyFiltered.processFile CUTOFF excl content st dataFiles file).writes = [] ∧
      ((CopyFiltered.processFile CUTOFF excl content st dataFiles file).decision = .ignoredNonCsv ∨
       (CopyFiltered.processFile CUTOFF excl content st dataFiles file).decision = .alreadyExists ∨
       (CopyFiltered.processFile CUTOFF excl content st dataFiles file).decision = .skippedDate)) ∧
    CopyFiltered.processFile ⟨2024, 1, 1, 0, 0, 0⟩ "fw" none ⟨[], [], [], []⟩
      ["inverter_DEV1_2020-01-03_09-00.csv"] "DEV1_2020-01-05_10-00-00.csv" =
      ⟨.skippedDate, []⟩ ∧
    Watchdog.processFile ⟨[], [], [], []⟩
      ["inverter_DEV1_2020-01-03_09-00.csv"] "DEV1_2020-01-05_10-00-00.csv" =
      ⟨.stagedBoth, [.copyToTests "inverter_DEV1_2020-01-03_09-00.csv",
                     .copyToResults "DEV1_2020-01-05_10-00-00.csv"]⟩ := by
  refine ⟨?_, by decide, by decide⟩
  simp only [CopyFiltered.processFile]
  split
  · exact ⟨rfl, Or.inl rfl⟩
  split
  · exact ⟨rfl, Or.inr (Or.inl rfl)⟩
  split
  · simp_all
  · rename_i sn2 T2 heq
    rw [hp] at heq
    injection heq with heq2
    injection heq2 with e1 e2
    subst e1
    subst e2
    simp only [if_pos hc]
    simp

/-- C9 witness: the universal part applied at a concrete pre-cutoff input. -/
theorem c9_cutoff_only_in_batch_witness :
    (CopyFiltered.parse_results_file "DEV1_2020-01-05_10-00-00.csv" =
        some ("DEV1", ⟨2020, 1, 5, 10, 0, 0⟩) ∧
      Datetime.toSec ⟨2020, 1, 5, 10, 0, 0⟩ ≤ Datetime.toSec ⟨2024, 1, 1, 0, 0, 0⟩) ∧
    ((CopyFiltered.processFile ⟨2024, 1, 1, 0, 0, 0⟩ "fw" none ⟨[], [], [], []⟩
        ["inverter_DEV1_2020-01-03_09-00.csv"] "DEV1_2020-01-05_10-00-00.csv").writes = [] ∧
      ((CopyFiltered.processFile ⟨2024, 1, 1, 0, 0, 0⟩ "fw" none ⟨[], [], [], []⟩
        ["inverter_DEV1_2020-01-03_09-00.csv"] "DEV1_2020-01-05_10-00-00.csv").decision = .ignoredNonCsv ∨
       (CopyFiltered.processFile ⟨2024, 1, 1, 0, 0, 0⟩ "fw" none ⟨[], [], [], []⟩
        ["inverter_DEV1_2020-01-03_09-00.csv"] "DEV1_2020-01-05_10-00-00.csv").decision = .alreadyExists ∨
       (CopyFiltered.processFile ⟨2024, 1, 1, 0, 0, 0⟩ "fw" none ⟨[], [], [], []⟩
        ["inverter_DEV1_2020-01-03_09-00.csv"] "DEV1_2020-01-05_10-00-00.csv").decision = .skippedDate)) := by
  refine ⟨⟨by decide, by decide⟩, ?_⟩
  exact (c9_cutoff_only_in_batch ⟨2024, 1, 1, 0, 0, 0⟩ "fw" none ⟨[], [], [], []⟩
    ["inverter_DEV1_2020-01-03_09-00.csv"] "DEV1_2020-01-05_10-00-00.csv" "DEV1"
    ⟨2020, 1, 5, 10, 0, 0⟩ (by decide) (by decide)).1

/-! ## C1 -/

/-- After a staging run of the polling-loop body, the same inputs yield
`AlreadyExists` with no writes: the result filename was appended to
`to_process/results` by the first run. -/
lemma watchdog_second_run (st : FsState) (dataFiles : List String) (file : String)
    (h : (Watchdog.processFile st dataFiles file).decision = .stagedBoth ∨
         (Watchdog.processFile st dataFiles file).decision = .stagedResultOnly) :
    Watchdog.processFile (applyWrites st (Watchdog.processFile st dataFiles file).writes)
      dataFiles file = ⟨.alreadyExists, []⟩ := by
  by_cases hmem : file ∈ st.processedResults ∨ file ∈ st.toProcessResults
  · simp only [Watchdog.processFile, if_pos hmem] at h
    rcases h with h | h <;> exact absurd h (by decide)
  · cases hp : Watchdog.parse_results_file file with
    | none =>
      simp only [Watchdog.processFile, if_neg hmem, hp] at h
      rcases h with h | h <;> exact absurd h (by decide)
    | some p =>
      obtain ⟨sn, T⟩ := p
      cases hm : pyMaxByTs (Watchdog.testCandidates sn T dataFiles) with
      | none =>
        simp only [Watchdog.processFile, if_neg hmem, hp, hm] at h
        rcases h with h | h <;> exact absurd h (by decide)
      | some q =>
        obtain ⟨tf, S⟩ := q
        by_cases hw : T.toSec ≤ S.toSec + 259200
        · by_cases ht : ¬ (tf ∈ st.toProcessTests ∨ tf ∈ st.processedTests)
          · have hrun : Watchdog.processFile st dataFiles file =
                ⟨.stagedBoth, [.copyToTests tf, .copyToResults file]⟩ := by
              simp only [Watchdog.processFile, if_neg hmem, hp, hm, if_pos hw, if_pos ht]
            rw [hrun]
            have hmem2 : file ∈ (applyWrites st
                [WriteOp.copyToTests tf, WriteOp.copyToResults file]).toProcessResults := by
              simp [applyWrites, applyWrite]
            simp only [Watchdog.processFile, if_pos (Or.inr hmem2)]
          · have hrun : Watchdog.processFile st dataFiles file =
                ⟨.stagedResultOnly, [.copyToResults file]⟩ := by
              simp only [Watchdog.processFile, if_neg hmem, hp, hm, if_pos hw, if_neg ht]
            rw [hrun]
            have hmem2 : file ∈
                (applyWrites st [WriteOp.copyToResults file]).toProcessResults := by
              simp [applyWrites, applyWrite]
            simp only [Watchdog.processFile, if_pos (Or.inr hmem2)]
        · simp only [Watchdog.processFile, if_neg hmem, hp, hm, if_neg hw] at h
          rcases h with h | h <;> exact absurd h (by decide)

/-- After a staging run of the batch-script body, the same inputs yield
`AlreadyExists` with no writes. -/
lemma copyf_second_run (CUTOFF : Datetime) (excl : String)
    (content : Option (List (List String))) (st : FsState)
    (dataFiles : List String) (file : String)
    (h : (CopyFiltered.processFile CUTOFF excl content st dataFiles file).decision = .stagedBoth ∨
         (CopyFiltered.processFile CUTOFF excl content st dataFiles file).decision = .stagedResultOnly) :
    CopyFiltered.processFile CUTOFF excl content
      (applyWrites st (CopyFiltered.processFile CUTOFF excl content st dataFiles file).writes)
      dataFiles file = ⟨.alreadyExists, []⟩ := by
  by_cases hcsv : ¬ endsWithCsv file
  · simp only [CopyFiltered.processFile, if_pos hcsv] at h
    rcases h with h | h <;> exact absurd h (by decide)
  · by_cases hmem : file ∈ st.processedResults ∨ file ∈ st.toProcessResults
    · simp only [CopyFiltered.processFile, if_neg hcsv, if_pos hmem] at h
      rcases h with h | h <;> exact absurd h (by decide)
    · cases hp : CopyFiltered.parse_results_file file with
      | none =>
        simp only [CopyFiltered.processFile, if_neg hcsv, if_neg hmem, hp] at h
        rcases h with h | h <;> exact absurd h (by decide)
      | some p =>
        obtain ⟨sn, T⟩ := p
        by_cases hcut : T.toSec ≤ CUTOFF.toSec
        · simp only [CopyFiltered.processFile, if_neg hcsv, if_neg hmem, hp, if_pos hcut] at h
          rcases h with h | h <;> exact absurd h (by decide)
        · by_cases hfw : CopyFiltered.check_firmware_version excl content = true
          · simp only [CopyFiltered.processFile, if_neg hcsv, if_neg hmem, hp,
              if_neg hcut, if_pos hfw] at h
            rcases h with h | h <;> exact absurd h (by decide)
          · cases hm : pyMaxByTs (CopyFiltered.testCandidates sn T dataFiles) with
            | none =>
              simp only [CopyFiltered.processFile, if_neg hcsv, if_neg hmem, hp,
                if_neg hcut, if_neg hfw, hm] at h
              rcases h with h | h <;> exact absurd h (by decide)
            | some q =>
              obtain ⟨tf, S⟩ := q
              by_cases hw : T.toSec ≤ S.toSec + 259200
              · by_cases ht : ¬ (tf ∈ st.toProcessTests ∨ tf ∈ st.processedTests)
                · have hrun : CopyFiltered.processFile CUTOFF excl content st dataFiles file =
                      ⟨.stagedBoth, [.copyToTests tf, .copyToResults file]⟩ := by
                    simp only [CopyFiltered.processFile, if_neg hcsv, if_neg hmem, hp,
                      if_neg hcut, if_neg hfw, hm, if_pos hw, if_pos ht]
                  rw [hrun]
                  have hmem2 : file ∈ (applyWrites st
                      [WriteOp.copyToTests tf, WriteOp.copyToResults file]).toProcessResults := by
                    simp [applyWrites, applyWrite]
                  simp only [CopyFiltered.processFile, if_neg hcsv, if_pos (Or.inr hmem2)]
                · have hrun : CopyFiltered.processFile CUTOFF excl content st dataFiles file =
                      ⟨.stagedResultOnly, [.copyToResults file]⟩ := by
                    simp only [CopyFiltered.processFile, if_neg hcsv, if_neg hmem, hp,
                      if_neg hcut, if_neg hfw, hm, if_pos hw, if_neg ht]
                  rw [hrun]
                  have hmem2 : file ∈
                      (applyWrites st [WriteOp.copyToResults file]).toProcessResults := by
                    simp [applyWrites, applyWrite]
                  simp only [CopyFiltered.processFile, if_neg hcsv, if_pos (Or.inr hmem2)]
              · simp only [CopyFiltered.processFile, if_neg hcsv, if_neg hmem, hp,
                  if_neg hcut, if_neg hfw, hm, if_neg hw] at h
                rcases h with h | h <;> exact absurd h (by decide)

/-- C1: re-running either admit step with identical inputs and no intervening
archival after a run that staged the result file produces the AlreadyExists
decision and performs no filesystem writes (no copy of either the result file
or the session file): the presence check against `to_process/results` and
`processed/results` fires before any copy. -/
theorem c1_intake_gate_idempotent (CUTOFF : Datetime) (excl : String)
    (content : Option (List (List String))) (st : FsState)
    (dataFiles : List String) (file : String)
    (hW : (Watchdog.processFile st dataFiles file).decision = .stagedBoth ∨
          (Watchdog.processFile st dataFiles file).decision = .stagedResultOnly)
    (hB : (CopyFiltered.processFile CUTOFF excl content st dataFiles file).decision = .stagedBoth ∨
          (CopyFiltered.processFile CUTOFF excl content st dataFiles file).decision = .stagedResultOnly) :
    Watchdog.processFile (applyWrites st (Watchdog.processFile st dataFiles file).writes)
        dataFiles file = ⟨.alreadyExists, []⟩ ∧
    CopyFiltered.processFile CUTOFF excl content
        (applyWrites st (CopyFiltered.processFile CUTOFF excl content st dataFiles file).writes)
        dataFiles file = ⟨.alreadyExists, []⟩ :=
  ⟨watchdog_second_run st dataFiles file hW,
   copyf_second_run CUTOFF excl content st dataFiles file hB⟩

/-- C1 witness: a run that stages both files, re-run on the resulting state. -/
theorem c1_intake_gate_idempotent_witness :
    ((Watchdog.processFile ⟨[], [], [], []⟩ ["inverter_DEV1_2025-07-18_09-00.csv"]
        "DEV1_2025-07-20_10-00-00.csv").decision = .stagedBoth ∨
     (Watchdog.processFile ⟨[], [], [], []⟩ ["inverter_DEV1_2025-07-18_09-00.csv"]
        "DEV1_2025-07-20_10-00-00.csv").decision = .stagedResultOnly) ∧
    ((CopyFiltered.processFile ⟨2024, 1, 1, 0, 0, 0⟩ "fw" none ⟨[], [], [], []⟩
        ["inverter_DEV1_2025-07-18_09-00.csv"]
        "DEV1_2025-07-20_10-00-00.csv").decision = .stagedBoth ∨
     (CopyFiltered.processFile ⟨2024, 1, 1, 0, 0, 0⟩ "fw" none ⟨[], [], [], []⟩
        ["inverter_DEV1_2025-07-18_09-00.csv"]
        "DEV1_2025-07-20_10-00-00.csv").decision = .stagedResultOnly) ∧
    (Watchdog.processFile (applyWrites ⟨[], [], [], []⟩
        (Watchdog.processFile ⟨[], [], [], []⟩ ["inverter_DEV1_2025-07-18_09-00.csv"]
          "DEV1_2025-07-20_10-00-00.csv").writes)
        ["inverter_DEV1_2025-07-18_09-00.csv"] "DEV1_2025-07-20_10-00-00.csv" =
        ⟨.alreadyExists, []⟩ ∧
     CopyFiltered.processFile ⟨2024, 1, 1, 0, 0, 0⟩ "fw" none
        (applyWrites ⟨[], [], [], []⟩
          (CopyFiltered.processFile ⟨2024, 1, 1, 0, 0, 0⟩ "fw" none ⟨[], [], [], []⟩
            ["inverter_DEV1_2025-07-18_09-00.csv"]
            "DEV1_2025-07-20_10-00-00.csv").writes)
        ["inverter_DEV1_2025-07-18_09-00.csv"] "DEV1_2025-07-20_10-00-00.csv" =
        ⟨.alreadyExists, []⟩) :=
  ⟨Or.inl (by decide), Or.inl (by decide),
   c1_intake_gate_idempotent ⟨2024, 1, 1, 0, 0, 0⟩ "fw" none ⟨[], [], [], []⟩
     ["inverter_DEV1_2025-07-18_09-00.csv"] "DEV1_2025-07-20_10-00-00.csv"
     (Or.inl (by decide)) (Or.inl (by decide))⟩

/-! ## C7 -/

/-- C7: when the matched session file already exists in `to_process/tests` or
`processed/tests`, admitting a new matched result copies only the result file
and returns `StagedResultOnly` — the session file is not copied a second
time — in both the polling loop and the batch variant. -/
theorem c7_session_staged_once (CUTOFF : Datetime) (excl : String)
    (content : Option (List (List String))) (st : FsState)
    (dataFiles : List String) (file sn tf : String) (T S : Datetime)
    (hmem : ¬ (file ∈ st.processedResults ∨ file ∈ st.toProcessResults))
    (hWp : Watchdog.parse_results_file file = some (sn, T))
    (hWm : pyMaxByTs (Watchdog.testCandidates sn T dataFiles) = some (tf, S))
    (hw : T.toSec ≤ S.toSec + 259200)
    (hts : tf ∈ st.toProcessTests ∨ tf ∈ st.processedTests)
    (hcsv : endsWithCsv file = true)
    (hBp : CopyFiltered.parse_results_file file = some (sn, T))
    (hcut : ¬ T.toSec ≤ CUTOFF.toSec)
    (hfw : ¬ CopyFiltered.check_firmware_version excl content = true)
    (hBm : pyMaxByTs (CopyFiltered.testCandidates sn T dataFiles) = some (tf, S)) :
    Watchdog.processFile st dataFiles file = ⟨.stagedResultOnly, [.copyToResults file]⟩ ∧
    CopyFiltered.processFile CUTOFF excl content st dataFiles file =
      ⟨.stagedResultOnly, [.copyToResults file]⟩ := by
  constructor
  · simp only [Watchdog.processFile, if_neg hmem, hWp, hWm, if_pos hw,
      if_neg (not_not_intro hts)]
  · simp only [CopyFiltered.processFile,
      if_neg (show ¬ ¬ (endsWithCsv file = true) from not_not_intro hcsv),
      if_neg hmem, hBp, if_neg hcut, if_neg hfw, hBm, if_pos hw,
      if_neg (not_not_intro hts)]

/-- C7 witness: a session already staged by a previous cycle, matched by a
fresh result file, in both variants. -/
theorem c7_session_staged_once_witness :
    (¬ ("DEV1_2025-07-20_10-00-00.csv" ∈
          (⟨[], [], ["inverter_DEV1_2025-07-18_09-00.csv"], []⟩ : FsState).processedResults ∨
        "DEV1_2025-07-20_10-00-00.csv" ∈
          (⟨[], [], ["inverter_DEV1_2025-07-18_09-00.csv"], []⟩ : FsState).toProcessResults) ∧
      ("inverter_DEV1_2025-07-18_09-00.csv" ∈
          (⟨[], [], ["inverter_DEV1_2025-07-18_09-00.csv"], []⟩ : FsState).toProcessTests ∨
        "inverter_DEV1_2025-07-18_09-00.csv" ∈
          (⟨[], [], ["inverter_DEV1_2025-07-18_09-00.csv"], []⟩ : FsState).processedTests)) ∧
    Watchdog.processFile ⟨[], [], ["inverter_DEV1_2025-07-18_09-00.csv"], []⟩
        ["inverter_DEV1_2025-07-18_09-00.csv"] "DEV1_2025-07-20_10-00-00.csv" =
      ⟨.stagedResultOnly, [.copyToResults "DEV1_2025-07-20_10-00-00.csv"]⟩ ∧
    CopyFiltered.processFile ⟨2024, 1, 1, 0, 0, 0⟩ "fw" none
        ⟨[], [], ["inverter_DEV1_2025-07-18_09-00.csv"], []⟩
        ["inverter_DEV1_2025-07-18_09-00.csv"] "DEV1_2025-07-20_10-00-00.csv" =
      ⟨.stagedResultOnly, [.copyToResults "DEV1_2025-07-20_10-00-00.csv"]⟩ := by
  refine ⟨⟨by decide, by decide⟩, ?_, ?_⟩
  · exact (c7_session_staged_once ⟨2024, 1, 1, 0, 0, 0⟩ "fw" none
      ⟨[], [], ["inverter_DEV1_2025-07-18_09-00.csv"], []⟩
      ["inverter_DEV1_2025-07-18_09-00.csv"] "DEV1_2025-07-20_10-00-00.csv" "DEV1"
      "inverter_DEV1_2025-07-18_09-00.csv" ⟨2025, 7, 20, 10, 0, 0⟩ ⟨2025, 7, 18, 9, 0, 0⟩
      (by decide) (by decide) (by decide) (by decide) (by decide) (by decide) (by decide)
      (by decide) (by decide) (by decide)).1
  · exact (c7_session_staged_once ⟨2024, 1, 1, 0, 0, 0⟩ "fw" none
      ⟨[], [], ["inverter_DEV1_2025-07-18_09-00.csv"], []⟩
      ["inverter_DEV1_2025-07-18_09-00.csv"] "DEV1_2025-07-20_10-00-00.csv" "DEV1"
      "inverter_DEV1_2025-07-18_09-00.csv" ⟨2025, 7, 20, 10, 0, 0⟩ ⟨2025, 7, 18, 9, 0, 0⟩
      (by decide) (by decide) (by decide) (by decide) (by decide) (by decide) (by decide)
      (by decide) (by decide) (by decide)).2

/-! ## C3 -/

/-- C3 counterexample: with a result at T = 2025-07-20 12:00:00 and
same-device sessions at T-1h, T-2d and T-4d, window three days, both matcher
variants select the T-1h session — the latest candidate before T — and not
the T-2d session the claim names; the T-1h selection also passes the window
check, so it is the final match.  The polling-loop pool uses seconds-present
session names and the batch pool seconds-absent ones, the form each session
parser accepts (see C5); the timestamps are identical. -/
theorem c3_matcher_selects_latest_not_t_minus_2d :
    pyMaxByTs (Watchdog.testCandidates "DEV1" ⟨2025, 7, 20, 12, 0, 0⟩
        ["inverter_DEV1_2025-07-20_11-00-00.csv", "inverter_DEV1_2025-07-18_12-00-00.csv",
         "inverter_DEV1_2025-07-16_12-00-00.csv"]) ≠
      some ("inverter_DEV1_2025-07-18_12-00-00.csv", ⟨2025, 7, 18, 12, 0, 0⟩) ∧
    pyMaxByTs (CopyFiltered.testCandidates "DEV1" ⟨2025, 7, 20, 12, 0, 0⟩
        ["inverter_DEV1_2025-07-20_11-00.csv", "inverter_DEV1_2025-07-18_12-00.csv",
         "inverter_DEV1_2025-07-16_12-00.csv"]) ≠
      some ("inverter_DEV1_2025-07-18_12-00.csv", ⟨2025, 7, 18, 12, 0, 0⟩) := by
  constructor
  · decide
  · decide

/-- C3 amended: with that candidate pool both matcher variants select the
session at T-1h (the latest-before policy — `max` over candidates with
timestamp before T), and the selection is within the three-day window. -/
theorem c3_matcher_latest_before :
    pyMaxByTs (Watchdog.testCandidates "DEV1" ⟨2025, 7, 20, 12, 0, 0⟩
        ["inverter_DEV1_2025-07-20_11-00-00.csv", "inverter_DEV1_2025-07-18_12-00-00.csv",
         "inverter_DEV1_2025-07-16_12-00-00.csv"]) =
      some ("inverter_DEV1_2025-07-20_11-00-00.csv", ⟨2025, 7, 20, 11, 0, 0⟩) ∧
    pyMaxByTs (CopyFiltered.testCandidates "DEV1" ⟨2025, 7, 20, 12, 0, 0⟩
        ["inverter_DEV1_2025-07-20_11-00.csv", "inverter_DEV1_2025-07-18_12-00.csv",
         "inverter_DEV1_2025-07-16_12-00.csv"]) =
      some ("inverter_DEV1_2025-07-20_11-00.csv", ⟨2025, 7, 20, 11, 0, 0⟩) ∧
    Datetime.toSec ⟨2025, 7, 20, 12, 0, 0⟩ ≤ Datetime.toSec ⟨2025, 7, 20, 11, 0, 0⟩ + 259200 := by
  refine ⟨by decide, by decide, by decide⟩

/-! ## C4 -/

/-- C4 counterexample: the comparison against the result timestamp is not a
configurable mode — it is hardcoded differently in each program.  On one
concrete pool holding the same session moment in both filename forms, at
exactly the result timestamp T, the polling loop admits both candidates
(`test_info[1] <= T`) while the batch variant admits none (`test_info[1] < T`
drops the equal-timestamp session; the seconds-present name is already
unparseable to its session parser).  Neither function takes any
configuration input that could select the comparison. -/
theorem c4_comparison_differs_between_programs :
    Watchdog.testCandidates "DEV1" ⟨2025, 7, 20, 12, 0, 0⟩
        ["inverter_DEV1_2025-07-20_12-00-00.csv", "inverter_DEV1_2025-07-20_12-00.csv"] =
      [("inverter_DEV1_2025-07-20_12-00-00.csv", ⟨2025, 7, 20, 12, 0, 0⟩),
       ("inverter_DEV1_2025-07-20_12-00.csv", ⟨2025, 7, 20, 12, 0, 0⟩)] ∧
    CopyFiltered.testCandidates "DEV1" ⟨2025, 7, 20, 12, 0, 0⟩
        ["inverter_DEV1_2025-07-20_12-00-00.csv", "inverter_DEV1_2025-07-20_12-00.csv"] = [] := by
  constructor
  · decide
  · decide

/-- C4 amended: the comparison mode is fixed per program, not configurable:
for every pool, a pair is a candidate of the polling loop exactly when the
file is listed, its session parse yields the device of the result and a
timestamp at or before T, and a candidate of the batch variant exactly when
the file is additionally a `.csv` name and its timestamp is strictly before
T. -/
theorem c4_comparison_fixed_per_program (sn tf : String) (T ts : Datetime)
    (dataFiles : List String) :
    ((tf, ts) ∈ Watchdog.testCandidates sn T dataFiles ↔
      tf ∈ dataFiles ∧ Watchdog.parse_test_file tf = some (sn, ts) ∧
        ts.toSec ≤ T.toSec) ∧
    ((tf, ts) ∈ CopyFiltered.testCandidates sn T dataFiles ↔
      tf ∈ dataFiles ∧ endsWithCsv tf = true ∧
        CopyFiltered.parse_test_file tf = some (sn, ts) ∧ ts.toSec < T.toSec) := by
  constructor
  · constructor
    · intro h
      simp only [Watchdog.testCandidates, List.mem_filterMap] at h
      obtain ⟨a, ha, heq⟩ := h
      cases hpt : Watchdog.parse_test_file a with
      | none =>
        simp only [hpt] at heq
        exact Option.noConfusion heq
      | some p =>
        obtain ⟨s, u⟩ := p
        simp only [hpt] at heq
        split at heq
        · rename_i hc
          injection heq with h2
          injection h2 with e1 e2
          subst e1
          subst e2
          exact ⟨ha, by rw [hpt, hc.1], hc.2⟩
        · exact absurd heq (by simp)
    · rintro ⟨hmem, hp, hle⟩
      simp only [Watchdog.testCandidates, List.mem_filterMap]
      refine ⟨tf, hmem, ?_⟩
      simp only [hp]
      simp [hle]
  · constructor
    · intro h
      simp only [CopyFiltered.testCandidates, List.mem_filterMap] at h
      obtain ⟨a, ha, heq⟩ := h
      by_cases hcsv : ¬ endsWithCsv a
      · rw [if_pos hcsv] at heq
        exact absurd heq (by simp)
      · rw [if_neg hcsv] at heq
        cases hpt : CopyFiltered.parse_test_file a with
        | none =>
          simp only [hpt] at heq
          exact Option.noConfusion heq
        | some p =>
          obtain ⟨s, u⟩ := p
          simp only [hpt] at heq
          split at heq
          · rename_i hc
            injection heq with h2
            injection h2 with e1 e2
            subst e1
            subst e2
            exact ⟨ha, not_not.mp hcsv, by rw [hpt, hc.1], hc.2⟩
          · exact absurd heq (by simp)
    · rintro ⟨hmem, hcsv, hp, hlt⟩
      simp only [CopyFiltered.testCandidates, List.mem_filterMap]
      refine ⟨tf, hmem, ?_⟩
      rw [if_neg (show ¬ ¬ (endsWithCsv tf = true) from not_not_intro hcsv)]
      simp only [hp]
      simp [hlt]

/-! ## Codec round-trip machinery -/

lemma optBind_some {α β : Type} (a : α) (f : α → Option β) : (some a).bind f = f a := rfl

lemma optBind_none {α β : Type} (f : α → Option β) : (none : Option α).bind f = none := rfl

/-- Facts about the characters produced by `Nat.digitChar` on an actual digit. -/
lemma digitChar_props (d : Nat) (h : d < 10) :
    (Nat.digitChar d).isDigit = true ∧ (Nat.digitChar d).toNat = 48 + d ∧
    (Nat.digitChar d).isWhitespace = false ∧ Nat.digitChar d ≠ '-' ∧
    Nat.digitChar d ≠ '_' ∧ Nat.digitChar d ≠ '.' ∧ Nat.digitChar d ≠ ':' ∧
    Nat.digitChar d ≠ '\n' := by
  interval_cases d <;>
    exact ⟨by decide, by decide, by decide, by decide, by decide, by decide, by decide, by decide⟩

lemma digitChar_isDigit (d : Nat) (h : d < 10) : (Nat.digitChar d).isDigit = true :=
  (digitChar_props d h).1

lemma digitChar_isDigit_mod (n : Nat) : (Nat.digitChar (n % 10)).isDigit = true :=
  digitChar_isDigit _ (Nat.mod_lt _ (by omega))

lemma isDigit_ne (c x : Char) (h : c.isDigit = true) (hx : x.isDigit = false) : c ≠ x :=
  fun e => by rw [e, hx] at h; exact Bool.noConfusion h

lemma daysInMonth_le (y m : Nat) : daysInMonth y m ≤ 31 := by
  unfold daysInMonth
  split
  · split <;> omega
  · split <;> omega

/-- A digit run followed by a non-digit is consumed whole. -/
lemma spanDigits_append (ds rest : List Char) (hds : ∀ c ∈ ds, c.isDigit = true)
    (hrest : (rest.headD ' ').isDigit = false) :
    spanDigits (ds ++ rest) = (ds, rest) := by
  induction ds with
  | nil =>
    simp only [List.nil_append]
    cases rest with
    | nil => rfl
    | cons c t =>
      simp only [List.headD_cons] at hrest
      simp [spanDigits, hrest]
  | cons c t ih =>
    have hc := hds c (List.mem_cons_self c t)
    have ht := ih (fun x hx => hds x (List.mem_cons_of_mem c hx))
    simp [spanDigits, hc, ht]

lemma yearField_eval (y : Nat) (hy : y ≤ 9999) (rest : List Char)
    (hrest : (rest.headD ' ').isDigit = false) :
    yearField (pad4 y ++ rest) = some (y, rest) := by
  have h1 := digitChar_props (y / 1000) (by omega)
  have h2 := digitChar_props (y / 100 % 10) (by omega)
  have h3 := digitChar_props (y / 10 % 10) (by omega)
  have h4 := digitChar_props (y % 10) (by omega)
  have hs := spanDigits_append (pad4 y) rest (by
    intro c hc
    simp only [pad4, List.mem_cons, List.not_mem_nil, or_false] at hc
    rcases hc with rfl | rfl | rfl | rfl
    exacts [h1.1, h2.1, h3.1, h4.1]) hrest
  simp only [pad4] at hs
  simp only [yearField, pad4, hs]
  have : digitsVal [Nat.digitChar (y / 1000), Nat.digitChar (y / 100 % 10),
      Nat.digitChar (y / 10 % 10), Nat.digitChar (y % 10)] = y := by
    simp only [digitsVal, List.foldl]
    rw [h1.2.1, h2.2.1, h3.2.1, h4.2.1]
    omega
  rw [this]

lemma fld_eval (lo hi v : Nat) (hv : v ≤ 99) (rest : List Char)
    (hrest : (rest.headD ' ').isDigit = false) (hlo : lo ≤ v) (hhi : v ≤ hi) :
    fld lo hi (pad2 v ++ rest) = some (v, rest) := by
  have ha := digitChar_props (v / 10) (by omega)
  have hb := digitChar_props (v % 10) (by omega)
  have hs := spanDigits_append (pad2 v) rest (by
    intro c hc
    simp only [pad2, List.mem_cons, List.not_mem_nil, or_false] at hc
    rcases hc with rfl | rfl
    exacts [ha.1, hb.1]) hrest
  simp only [pad2] at hs
  simp only [fld, pad2, hs]
  have hval2 : 10 * ((Nat.digitChar (v / 10)).toNat - 48) + ((Nat.digitChar (v % 10)).toNat - 48) = v := by
    rw [ha.2.1, hb.2.1]
    omega
  rw [hval2]
  rw [if_pos ⟨hlo, hhi⟩]

lemma dropWs_eval (rest : List Char) (hrest : (rest.headD ' ').isWhitespace = false) :
    dropWs rest = rest := by
  cases rest with
  | nil => rfl
  | cons c t =>
    simp only [List.headD_cons] at hrest
    simp [dropWs, hrest]

lemma wsField_eval (rest : List Char) (hrest : (rest.headD ' ').isWhitespace = false) :
    wsField (' ' :: rest) = some rest := by
  have hws : (' ').isWhitespace = true := by decide
  simp [wsField, hws, dropWs_eval rest hrest]

lemma expectC_self (c : Char) (r : List Char) : expectC c (c :: r) = some r := by
  simp [expectC]

/-- Bounds packaged from `validDatetime`. -/
lemma validDatetime_bounds (ts : Datetime) (hval : validDatetime ts = true) :
    1 ≤ ts.year ∧ ts.year ≤ 9999 ∧ 1 ≤ ts.month ∧ ts.month ≤ 12 ∧
    1 ≤ ts.day ∧ ts.day ≤ daysInMonth ts.year ts.month ∧
    ts.hour ≤ 23 ∧ ts.minute ≤ 59 ∧ ts.second ≤ 59 := by
  simp only [validDatetime, Bool.and_eq_true, decide_eq_true_eq] at hval
  exact ⟨hval.1.1.1.1.1.1.1.1, hval.1.1.1.1.1.1.1.2, hval.1.1.1.1.1.1.2,
    hval.1.1.1.1.1.2, hval.1.1.1.1.2, hval.1.1.1.2, hval.1.1.2, hval.1.2, hval.2⟩

/-- The seconds-present date-time string parses back to the datetime it was
printed from. -/
lemma strptime_sec_eval (ts : Datetime) (hval : validDatetime ts = true) :
    strptimeFields '-' (dateChars ts ++ ' ' :: timeSecChars ts) = some ts := by
  obtain ⟨b1, b2, b3, b4, b5, b6, b7, b8, b9⟩ := validDatetime_bounds ts hval
  have hd31 : ts.day ≤ 31 := le_trans b6 (daysInMonth_le ts.year ts.month)
  have e1 := yearField_eval ts.year b2
    ('-' :: (pad2 ts.month ++ '-' :: (pad2 ts.day ++ ' ' :: (pad2 ts.hour ++
      '-' :: (pad2 ts.minute ++ '-' :: pad2 ts.second))))) (by rw [List.headD_cons]; decide)
  have e2 := fld_eval 1 12 ts.month (by omega)
    ('-' :: (pad2 ts.day ++ ' ' :: (pad2 ts.hour ++ '-' :: (pad2 ts.minute ++
      '-' :: pad2 ts.second)))) (by rw [List.headD_cons]; decide) b3 b4
  have e3 := fld_eval 1 31 ts.day (by omega)
    (' ' :: (pad2 ts.hour ++ '-' :: (pad2 ts.minute ++ '-' :: pad2 ts.second)))
    (by rw [List.headD_cons]; decide) b5 hd31
  have e4 := wsField_eval (pad2 ts.hour ++ '-' :: (pad2 ts.minute ++ '-' :: pad2 ts.second))
    (by simpa [pad2] using (digitChar_props (ts.hour / 10) (by omega)).2.2.1)
  have e5 := fld_eval 0 23 ts.hour (by omega)
    ('-' :: (pad2 ts.minute ++ '-' :: pad2 ts.second)) (by rw [List.headD_cons]; decide) (by omega) b7
  have e6 := fld_eval 0 59 ts.minute (by omega)
    ('-' :: pad2 ts.second) (by rw [List.headD_cons]; decide) (by omega) b8
  have e7 : fld 0 61 (pad2 ts.second) = some (ts.second, []) := by
    have := fld_eval 0 61 ts.second (by omega) [] (by decide) (by omega) (by omega)
    simpa using this
  simp only [dateChars, timeSecChars, List.append_assoc, List.cons_append]
  simp only [strptimeFields, e1, optBind_some, expectC_self, e2, e3, e4, e5, e6, e7]
  rw [if_pos ⟨by trivial, b1, b2, b6, b9⟩]

/-- The seconds-absent date-time string, with the `:00` the scripts append,
parses to the datetime with its seconds zeroed. -/
lemma strptime_nosec_eval (ts : Datetime) (hval : validDatetime ts = true) :
    strptimeFields ':' (dateChars ts ++ ' ' :: (timeNoSecChars ts ++ [':', '0', '0'])) =
      some ⟨ts.year, ts.month, ts.day, ts.hour, ts.minute, 0⟩ := by
  obtain ⟨b1, b2, b3, b4, b5, b6, b7, b8, b9⟩ := validDatetime_bounds ts hval
  have hd31 : ts.day ≤ 31 := le_trans b6 (daysInMonth_le ts.year ts.month)
  have e1 := yearField_eval ts.year b2
    ('-' :: (pad2 ts.month ++ '-' :: (pad2 ts.day ++ ' ' :: (pad2 ts.hour ++
      '-' :: (pad2 ts.minute ++ ':' :: ['0', '0'])))))
    (by rw [List.headD_cons]; decide)
  have e2 := fld_eval 1 12 ts.month (by omega)
    ('-' :: (pad2 ts.day ++ ' ' :: (pad2 ts.hour ++ '-' :: (pad2 ts.minute ++
      ':' :: ['0', '0'])))) (by rw [List.headD_cons]; decide) b3 b4
  have e3 := fld_eval 1 31 ts.day (by omega)
    (' ' :: (pad2 ts.hour ++ '-' :: (pad2 ts.minute ++ ':' :: ['0', '0'])))
    (by rw [List.headD_cons]; decide) b5 hd31
  have e4 := wsField_eval (pad2 ts.hour ++ '-' :: (pad2 ts.minute ++ ':' :: ['0', '0']))
    (by simpa [pad2] using (digitChar_props (ts.hour / 10) (by omega)).2.2.1)
  have e5 := fld_eval 0 23 ts.hour (by omega)
    ('-' :: (pad2 ts.minute ++ ':' :: ['0', '0'])) (by rw [List.headD_cons]; decide) (by omega) b7
  have e6 := fld_eval 0 59 ts.minute (by omega)
    (':' :: ['0', '0']) (by rw [List.headD_cons]; decide) (by omega) b8
  have e7 : fld 0 61 ['0', '0'] = some (0, []) := by decide
  simp only [dateChars, timeNoSecChars, List.append_assoc, List.cons_append]
  simp only [strptimeFields, e1, optBind_some, expectC_self, e2, e3, e4, e5, e6, e7]
  rw [if_pos ⟨by trivial, b1, b2, b6, by omega⟩]

/-- Reversed shape of the seconds-present result filename. -/
lemma mkResultNameSec_rev (sn : String) (ts : Datetime) :
    (mkResultNameSec sn ts).data.reverse =
      'v' :: 's' :: 'c' :: '.' ::
      Nat.digitChar (ts.second % 10) :: Nat.digitChar (ts.second / 10) :: '-' ::
      Nat.digitChar (ts.minute % 10) :: Nat.digitChar (ts.minute / 10) :: '-' ::
      Nat.digitChar (ts.hour % 10) :: Nat.digitChar (ts.hour / 10) :: '_' ::
      Nat.digitChar (ts.day % 10) :: Nat.digitChar (ts.day / 10) :: '-' ::
      Nat.digitChar (ts.month % 10) :: Nat.digitChar (ts.month / 10) :: '-' ::
      Nat.digitChar (ts.year % 10) :: Nat.digitChar (ts.year / 10 % 10) ::
      Nat.digitChar (ts.year / 100 % 10) :: Nat.digitChar (ts.year / 1000) :: '_' ::
      sn.data.reverse := by
  simp [mkResultNameSec, dateChars, timeSecChars, pad2, pad4]

/-- Reversed shape of the seconds-absent result filename. -/
lemma mkResultNameNoSec_rev (sn : String) (ts : Datetime) :
    (mkResultNameNoSec sn ts).data.reverse =
      'v' :: 's' :: 'c' :: '.' ::
      Nat.digitChar (ts.minute % 10) :: Nat.digitChar (ts.minute / 10) :: '-' ::
      Nat.digitChar (ts.hour % 10) :: Nat.digitChar (ts.hour / 10) :: '_' ::
      Nat.digitChar (ts.day % 10) :: Nat.digitChar (ts.day / 10) :: '-' ::
      Nat.digitChar (ts.month % 10) :: Nat.digitChar (ts.month / 10) :: '-' ::
      Nat.digitChar (ts.year % 10) :: Nat.digitChar (ts.year / 10 % 10) ::
      Nat.digitChar (ts.year / 100 % 10) :: Nat.digitChar (ts.year / 1000) :: '_' ::
      sn.data.reverse := by
  simp [mkResultNameNoSec, dateChars, timeNoSecChars, pad2, pad4]

/-- Reversed shape of the seconds-present session filename. -/
lemma mkTestNameSec_rev (sn : String) (ts : Datetime) :
    (mkTestNameSec sn ts).data.reverse =
      'v' :: 's' :: 'c' :: '.' ::
      Nat.digitChar (ts.second % 10) :: Nat.digitChar (ts.second / 10) :: '-' ::
      Nat.digitChar (ts.minute % 10) :: Nat.digitChar (ts.minute / 10) :: '-' ::
      Nat.digitChar (ts.hour % 10) :: Nat.digitChar (ts.hour / 10) :: '_' ::
      Nat.digitChar (ts.day % 10) :: Nat.digitChar (ts.day / 10) :: '-' ::
      Nat.digitChar (ts.month % 10) :: Nat.digitChar (ts.month / 10) :: '-' ::
      Nat.digitChar (ts.year % 10) :: Nat.digitChar (ts.year / 10 % 10) ::
      Nat.digitChar (ts.year / 100 % 10) :: Nat.digitChar (ts.year / 1000) :: '_' ::
      (sn.data.reverse ++ invPrefix.reverse) := by
  simp [mkTestNameSec, dateChars, timeSecChars, pad2, pad4, invPrefix]

/-- Reversed shape of the seconds-absent session filename. -/
lemma mkTestNameNoSec_rev (sn : String) (ts : Datetime) :
    (mkTestNameNoSec sn ts).data.reverse =
      'v' :: 's' :: 'c' :: '.' ::
      Nat.digitChar (ts.minute % 10) :: Nat.digitChar (ts.minute / 10) :: '-' ::
      Nat.digitChar (ts.hour % 10) :: Nat.digitChar (ts.hour / 10) :: '_' ::
      Nat.digitChar (ts.day % 10) :: Nat.digitChar (ts.day / 10) :: '-' ::
      Nat.digitChar (ts.month % 10) :: Nat.digitChar (ts.month / 10) :: '-' ::
      Nat.digitChar (ts.year % 10) :: Nat.digitChar (ts.year / 10 % 10) ::
      Nat.digitChar (ts.year / 100 % 10) :: Nat.digitChar (ts.year / 1000) :: '_' ::
      (sn.data.reverse ++ invPrefix.reverse) := by
  simp [mkTestNameNoSec, dateChars, timeNoSecChars, pad2, pad4, invPrefix]

/-- The seconds-present tail parser consumes a well-formed reversed tail. -/
lemma revTailSec_eval (ts : Datetime) (hval : validDatetime ts = true) (rest : List Char) :
    revTailSec ('v' :: 's' :: 'c' :: '.' ::
      Nat.digitChar (ts.second % 10) :: Nat.digitChar (ts.second / 10) :: '-' ::
      Nat.digitChar (ts.minute % 10) :: Nat.digitChar (ts.minute / 10) :: '-' ::
      Nat.digitChar (ts.hour % 10) :: Nat.digitChar (ts.hour / 10) :: '_' ::
      Nat.digitChar (ts.day % 10) :: Nat.digitChar (ts.day / 10) :: '-' ::
      Nat.digitChar (ts.month % 10) :: Nat.digitChar (ts.month / 10) :: '-' ::
      Nat.digitChar (ts.year % 10) :: Nat.digitChar (ts.year / 10 % 10) ::
      Nat.digitChar (ts.year / 100 % 10) :: Nat.digitChar (ts.year / 1000) :: '_' :: rest)
      = some rest := by
  obtain ⟨b1, b2, b3, b4, b5, b6, b7, b8, b9⟩ := validDatetime_bounds ts hval
  have hd31 : ts.day ≤ 31 := le_trans b6 (daysInMonth_le ts.year ts.month)
  have h1 : (Nat.digitChar (ts.second / 10)).isDigit = true := digitChar_isDigit _ (by omega)
  have h2 : (Nat.digitChar (ts.minute / 10)).isDigit = true := digitChar_isDigit _ (by omega)
  have h3 : (Nat.digitChar (ts.hour / 10)).isDigit = true := digitChar_isDigit _ (by omega)
  have h4 : (Nat.digitChar (ts.day / 10)).isDigit = true := digitChar_isDigit _ (by omega)
  have h5 : (Nat.digitChar (ts.month / 10)).isDigit = true := digitChar_isDigit _ (by omega)
  have h6 : (Nat.digitChar (ts.year / 10 % 10)).isDigit = true := digitChar_isDigit_mod _
  have h7 : (Nat.digitChar (ts.year / 100 % 10)).isDigit = true := digitChar_isDigit_mod _
  have h8 : (Nat.digitChar (ts.year / 1000)).isDigit = true := digitChar_isDigit _ (by omega)
  simp [revTailSec, revTimeSec, revDate, expectC, expectDig, optBind_some,
    digitChar_isDigit_mod, h1, h2, h3, h4, h5, h6, h7, h8]

/-- The seconds-present tail parser rejects a seconds-absent reversed tail:
after the two minute digits and the dash and the two hour digits it demands
another dash but meets the underscore before the date. -/
lemma revTailSec_noSecTail (ts : Datetime) (hval : validDatetime ts = true) (rest : List Char) :
    revTailSec ('v' :: 's' :: 'c' :: '.' ::
      Nat.digitChar (ts.minute % 10) :: Nat.digitChar (ts.minute / 10) :: '-' ::
      Nat.digitChar (ts.hour % 10) :: Nat.digitChar (ts.hour / 10) :: '_' :: rest)
      = none := by
  obtain ⟨b1, b2, b3, b4, b5, b6, b7, b8, b9⟩ := validDatetime_bounds ts hval
  have h2 : (Nat.digitChar (ts.minute / 10)).isDigit = true := digitChar_isDigit _ (by omega)
  have h3 : (Nat.digitChar (ts.hour / 10)).isDigit = true := digitChar_isDigit _ (by omega)
  have hne : ('_' : Char) ≠ '-' := by decide
  simp [revTailSec, revTimeSec, expectC, expectDig, optBind_some, optBind_none,
    digitChar_isDigit_mod, h2, h3, hne]

/-- The seconds-absent tail parser consumes a well-formed reversed tail. -/
lemma revTailNoSec_eval (ts : Datetime) (hval : validDatetime ts = true) (rest : List Char) :
    revTailNoSec ('v' :: 's' :: 'c' :: '.' ::
      Nat.digitChar (ts.minute % 10) :: Nat.digitChar (ts.minute / 10) :: '-' ::
      Nat.digitChar (ts.hour % 10) :: Nat.digitChar (ts.hour / 10) :: '_' ::
      Nat.digitChar (ts.day % 10) :: Nat.digitChar (ts.day / 10) :: '-' ::
      Nat.digitChar (ts.month % 10) :: Nat.digitChar (ts.month / 10) :: '-' ::
      Nat.digitChar (ts.year % 10) :: Nat.digitChar (ts.year / 10 % 10) ::
      Nat.digitChar (ts.year / 100 % 10) :: Nat.digitChar (ts.year / 1000) :: '_' :: rest)
      = some rest := by
  obtain ⟨b1, b2, b3, b4, b5, b6, b7, b8, b9⟩ := validDatetime_bounds ts hval
  have hd31 : ts.day ≤ 31 := le_trans b6 (daysInMonth_le ts.year ts.month)
  have h2 : (Nat.digitChar (ts.minute / 10)).isDigit = true := digitChar_isDigit _ (by omega)
  have h3 : (Nat.digitChar (ts.hour / 10)).isDigit = true := digitChar_isDigit _ (by omega)
  have h4 : (Nat.digitChar (ts.day / 10)).isDigit = true := digitChar_isDigit _ (by omega)
  have h5 : (Nat.digitChar (ts.month / 10)).isDigit = true := digitChar_isDigit _ (by omega)
  have h6 : (Nat.digitChar (ts.year / 10 % 10)).isDigit = true := digitChar_isDigit_mod _
  have h7 : (Nat.digitChar (ts.year / 100 % 10)).isDigit = true := digitChar_isDigit_mod _
  have h8 : (Nat.digitChar (ts.year / 1000)).isDigit = true := digitChar_isDigit _ (by omega)
  simp [revTailNoSec, revTimeNoSec, revDate, expectC, expectDig, optBind_some,
    digitChar_isDigit_mod, h2, h3, h4, h5, h6, h7, h8]

/-- The seconds-absent tail parser rejects a seconds-present reversed tail:
after the two seconds digits and the dash and the two minute digits it demands
the underscore before the date but meets another dash. -/
lemma revTailNoSec_secTail (ts : Datetime) (hval : validDatetime ts = true) (rest : List Char) :
    revTailNoSec ('v' :: 's' :: 'c' :: '.' ::
      Nat.digitChar (ts.second % 10) :: Nat.digitChar (ts.second / 10) :: '-' ::
      Nat.digitChar (ts.minute % 10) :: Nat.digitChar (ts.minute / 10) :: '-' :: rest)
      = none := by
  obtain ⟨b1, b2, b3, b4, b5, b6, b7, b8, b9⟩ := validDatetime_bounds ts hval
  have h1 : (Nat.digitChar (ts.second / 10)).isDigit = true := digitChar_isDigit _ (by omega)
  have h2 : (Nat.digitChar (ts.minute / 10)).isDigit = true := digitChar_isDigit _ (by omega)
  have hne : ('-' : Char) ≠ '_' := by decide
  simp [revTailNoSec, revTimeNoSec, expectC, expectDig, optBind_some, optBind_none,
    digitChar_isDigit_mod, h1, h2, hne]

/-- A nonempty newline-free stem passes the group check. -/
lemma stemOkFwd_eval (stem : List Char) (h1 : stem ≠ []) (h2 : ∀ c ∈ stem, c ≠ '\n') :
    stemOkFwd stem = true := by
  have hne : stem.isEmpty = false := by
    cases stem with
    | nil => exact absurd rfl h1
    | cons c t => rfl
  have hall : stem.all (fun c => c != '\n') = true := by
    rw [List.all_eq_true]
    intro x hx
    simpa [bne_iff_ne] using h2 x hx
  simp [stemOkFwd, hne, hall]

lemma resultsRegexSec_mkSec (sn : String) (ts : Datetime) (hval : validDatetime ts = true)
    (hsn1 : sn.data ≠ []) (hsn2 : ∀ c ∈ sn.data, c ≠ '\n') :
    resultsRegexSec (mkResultNameSec sn ts).data = true := by
  simp only [resultsRegexSec, mkResultNameSec_rev, revTailSec_eval ts hval]
  exact stemOkFwd_eval _ (by simpa using hsn1)
    (fun c hc => hsn2 c (List.mem_reverse.mp (by simpa using hc)))

lemma resultsRegexSec_mkNoSec (sn : String) (ts : Datetime) (hval : validDatetime ts = true) :
    resultsRegexSec (mkResultNameNoSec sn ts).data = false := by
  simp only [resultsRegexSec, mkResultNameNoSec_rev, revTailSec_noSecTail ts hval]

lemma resultsRegexNoSec_mkNoSec (sn : String) (ts : Datetime) (hval : validDatetime ts = true)
    (hsn1 : sn.data ≠ []) (hsn2 : ∀ c ∈ sn.data, c ≠ '\n') :
    resultsRegexNoSec (mkResultNameNoSec sn ts).data = true := by
  simp only [resultsRegexNoSec, mkResultNameNoSec_rev, revTailNoSec_eval ts hval]
  exact stemOkFwd_eval _ (by simpa using hsn1)
    (fun c hc => hsn2 c (List.mem_reverse.mp (by simpa using hc)))

lemma testRegexSec_mkSec (sn : String) (ts : Datetime) (hval : validDatetime ts = true)
    (hsn1 : sn.data ≠ []) (hsn2 : ∀ c ∈ sn.data, c ≠ '\n') :
    testRegexSec (mkTestNameSec sn ts).data = true := by
  simp only [testRegexSec, mkTestNameSec_rev, revTailSec_eval ts hval]
  have hrest : (sn.data.reverse ++ invPrefix.reverse).reverse = invPrefix ++ sn.data := by
    simp
  rw [hrest]
  have htake : (invPrefix ++ sn.data).take 9 = invPrefix := by
    have : invPrefix.length = 9 := by decide
    rw [← this, List.take_left]
  have hdrop : (invPrefix ++ sn.data).drop 9 = sn.data := by
    have : invPrefix.length = 9 := by decide
    rw [← this, List.drop_left]
  rw [htake, hdrop]
  simp [stemOkFwd_eval sn.data hsn1 hsn2]

lemma testRegexSec_mkNoSec (sn : String) (ts : Datetime) (hval : validDatetime ts = true) :
    testRegexSec (mkTestNameNoSec sn ts).data = false := by
  simp only [testRegexSec, mkTestNameNoSec_rev, revTailSec_noSecTail ts hval]

lemma testRegexNoSec_mkNoSec (sn : String) (ts : Datetime) (hval : validDatetime ts = true)
    (hsn1 : sn.data ≠ []) (hsn2 : ∀ c ∈ sn.data, c ≠ '\n') :
    testRegexNoSec (mkTestNameNoSec sn ts).data = true := by
  simp only [testRegexNoSec, mkTestNameNoSec_rev, revTailNoSec_eval ts hval]
  have hrest : (sn.data.reverse ++ invPrefix.reverse).reverse = invPrefix ++ sn.data := by
    simp
  rw [hrest]
  have htake : (invPrefix ++ sn.data).take 9 = invPrefix := by
    have : invPrefix.length = 9 := by decide
    rw [← this, List.take_left]
  have hdrop : (invPrefix ++ sn.data).drop 9 = sn.data := by
    have : invPrefix.length = 9 := by decide
    rw [← this, List.drop_left]
  rw [htake, hdrop]
  simp [stemOkFwd_eval sn.data hsn1 hsn2]

lemma testRegexNoSec_mkSec (sn : String) (ts : Datetime) (hval : validDatetime ts = true) :
    testRegexNoSec (mkTestNameSec sn ts).data = false := by
  simp only [testRegexNoSec, mkTestNameSec_rev, revTailNoSec_secTail ts hval]

lemma dropUntilDot_csv (a : List Char) :
    dropUntilDot ('v' :: 's' :: 'c' :: '.' :: a) = some a := by
  simp only [dropUntilDot]
  rw [if_neg (by decide : ¬ ('v' = '.')), if_neg (by decide : ¬ ('s' = '.')),
    if_neg (by decide : ¬ ('c' = '.'))]
  simp

/-- `os.path.splitext` removes exactly the `.csv` suffix when the base holds an
underscore (so is not all dots). -/
lemma splitextBase_append_csv (a : List Char) (ha : '_' ∈ a) :
    splitextBase (a ++ ['.', 'c', 's', 'v']) = a := by
  have h1 : (a ++ ['.', 'c', 's', 'v']).reverse = 'v' :: 's' :: 'c' :: '.' :: a.reverse := by
    simp
  have hdot : ¬ (a.reverse.reverse.all (fun c => c == '.') = true) := by
    rw [List.reverse_reverse]
    intro hall
    rw [List.all_eq_true] at hall
    exact absurd (hall _ ha) (by decide)
  simp only [splitextBase, h1, dropUntilDot_csv]
  rw [if_neg hdot, List.reverse_reverse]

lemma splitOnChar_sepFree (sep : Char) (a : List Char) (h : ∀ c ∈ a, c ≠ sep) :
    splitOnChar sep a = [a] := by
  induction a with
  | nil => rfl
  | cons c t ih =>
    have hc := h c (List.mem_cons_self c t)
    have ht := ih (fun x hx => h x (List.mem_cons_of_mem c hx))
    simp [splitOnChar, hc, ht]

lemma splitOnChar_append (sep : Char) (a b : List Char) (h : ∀ c ∈ a, c ≠ sep) :
    splitOnChar sep (a ++ sep :: b) = a :: splitOnChar sep b := by
  induction a with
  | nil => simp [splitOnChar]
  | cons c t ih =>
    have hc := h c (List.mem_cons_self c t)
    have ht := ih (fun x hx => h x (List.mem_cons_of_mem c hx))
    simp [splitOnChar, hc, ht]

lemma pad2_chars (v : Nat) (hv : v ≤ 99) : ∀ c ∈ pad2 v, c.isDigit = true := by
  intro c hc
  simp only [pad2, List.mem_cons, List.not_mem_nil, or_false] at hc
  rcases hc with rfl | rfl
  · exact digitChar_isDigit _ (by omega)
  · exact digitChar_isDigit_mod v

lemma pad4_chars (v : Nat) (hv : v ≤ 9999) : ∀ c ∈ pad4 v, c.isDigit = true := by
  intro c hc
  simp only [pad4, List.mem_cons, List.not_mem_nil, or_false] at hc
  rcases hc with rfl | rfl | rfl | rfl
  · exact digitChar_isDigit _ (by omega)
  · exact digitChar_isDigit_mod _
  · exact digitChar_isDigit_mod _
  · exact digitChar_isDigit_mod _

/-- Every character of the date field is a digit or a dash. -/
lemma dateChars_chars (ts : Datetime) (hval : validDatetime ts = true) :
    ∀ c ∈ dateChars ts, c.isDigit = true ∨ c = '-' := by
  obtain ⟨b1, b2, b3, b4, b5, b6, b7, b8, b9⟩ := validDatetime_bounds ts hval
  intro c hc
  simp only [dateChars, List.mem_append, List.mem_cons] at hc
  rcases hc with h | rfl | h | rfl | h
  · exact Or.inl (pad4_chars ts.year b2 c h)
  · exact Or.inr rfl
  · exact Or.inl (pad2_chars ts.month (by omega) c h)
  · exact Or.inr rfl
  · have hd31 : ts.day ≤ 31 := le_trans b6 (daysInMonth_le ts.year ts.month)
    exact Or.inl (pad2_chars ts.day (by omega) c h)

/-- Every character of the seconds-present time field is a digit or a dash. -/
lemma timeSecChars_chars (ts : Datetime) (hval : validDatetime ts = true) :
    ∀ c ∈ timeSecChars ts, c.isDigit = true ∨ c = '-' := by
  obtain ⟨b1, b2, b3, b4, b5, b6, b7, b8, b9⟩ := validDatetime_bounds ts hval
  intro c hc
  simp only [timeSecChars, List.mem_append, List.mem_cons] at hc
  rcases hc with h | rfl | h | rfl | h
  · exact Or.inl (pad2_chars ts.hour (by omega) c h)
  · exact Or.inr rfl
  · exact Or.inl (pad2_chars ts.minute (by omega) c h)
  · exact Or.inr rfl
  · exact Or.inl (pad2_chars ts.second (by omega) c h)

/-- Every character of the seconds-absent time field is a digit or a dash. -/
lemma timeNoSecChars_chars (ts : Datetime) (hval : validDatetime ts = true) :
    ∀ c ∈ timeNoSecChars ts, c.isDigit = true ∨ c = '-' := by
  obtain ⟨b1, b2, b3, b4, b5, b6, b7, b8, b9⟩ := validDatetime_bounds ts hval
  intro c hc
  simp only [timeNoSecChars, List.mem_append, List.mem_cons] at hc
  rcases hc with h | rfl | h
  · exact Or.inl (pad2_chars ts.hour (by omega) c h)
  · exact Or.inr rfl
  · exact Or.inl (pad2_chars ts.minute (by omega) c h)

lemma digit_or_dash_ne_underscore (c : Char) (h : c.isDigit = true ∨ c = '-') : c ≠ '_' := by
  rcases h with h | rfl
  · exact isDigit_ne c '_' h (by decide)
  · decide

lemma parts_result_sec (sn : String) (ts : Datetime) (hval : validDatetime ts = true)
    (hsnu : ∀ c ∈ sn.data, c ≠ '_') :
    splitOnChar '_' (splitextBase (mkResultNameSec sn ts).data) =
      [sn.data, dateChars ts, timeSecChars ts] := by
  have heq : (mkResultNameSec sn ts).data =
      (sn.data ++ '_' :: (dateChars ts ++ '_' :: timeSecChars ts)) ++ ['.', 'c', 's', 'v'] := by
    simp [mkResultNameSec, List.append_assoc]
  rw [heq, splitextBase_append_csv _ (by simp)]
  rw [splitOnChar_append '_' sn.data _ hsnu]
  rw [splitOnChar_append '_' (dateChars ts) _
    (fun c hc => digit_or_dash_ne_underscore c (dateChars_chars ts hval c hc))]
  rw [splitOnChar_sepFree '_' (timeSecChars ts)
    (fun c hc => digit_or_dash_ne_underscore c (timeSecChars_chars ts hval c hc))]

lemma parts_result_nosec (sn : String) (ts : Datetime) (hval : validDatetime ts = true)
    (hsnu : ∀ c ∈ sn.data, c ≠ '_') :
    splitOnChar '_' (splitextBase (mkResultNameNoSec sn ts).data) =
      [sn.data, dateChars ts, timeNoSecChars ts] := by
  have heq : (mkResultNameNoSec sn ts).data =
      (sn.data ++ '_' :: (dateChars ts ++ '_' :: timeNoSecChars ts)) ++ ['.', 'c', 's', 'v'] := by
    simp [mkResultNameNoSec, List.append_assoc]
  rw [heq, splitextBase_append_csv _ (by simp)]
  rw [splitOnChar_append '_' sn.data _ hsnu]
  rw [splitOnChar_append '_' (dateChars ts) _
    (fun c hc => digit_or_dash_ne_underscore c (dateChars_chars ts hval c hc))]
  rw [splitOnChar_sepFree '_' (timeNoSecChars ts)
    (fun c hc => digit_or_dash_ne_underscore c (timeNoSecChars_chars ts hval c hc))]

lemma parts_test_sec (sn : String) (ts : Datetime) (hval : validDatetime ts = true)
    (hsnu : ∀ c ∈ sn.data, c ≠ '_') :
    splitOnChar '_' (splitextBase (mkTestNameSec sn ts).data) =
      [['i', 'n', 'v', 'e', 'r', 't', 'e', 'r'], sn.data, dateChars ts, timeSecChars ts] := by
  have heq : (mkTestNameSec sn ts).data =
      (['i', 'n', 'v', 'e', 'r', 't', 'e', 'r'] ++ '_' ::
        (sn.data ++ '_' :: (dateChars ts ++ '_' :: timeSecChars ts))) ++ ['.', 'c', 's', 'v'] := by
    simp [mkTestNameSec, invPrefix, List.append_assoc]
  rw [heq, splitextBase_append_csv _ (by simp)]
  rw [splitOnChar_append '_' ['i', 'n', 'v', 'e', 'r', 't', 'e', 'r'] _ (by decide)]
  rw [splitOnChar_append '_' sn.data _ hsnu]
  rw [splitOnChar_append '_' (dateChars ts) _
    (fun c hc => digit_or_dash_ne_underscore c (dateChars_chars ts hval c hc))]
  rw [splitOnChar_sepFree '_' (timeSecChars ts)
    (fun c hc => digit_or_dash_ne_underscore c (timeSecChars_chars ts hval c hc))]

lemma parts_test_nosec (sn : String) (ts : Datetime) (hval : validDatetime ts = true)
    (hsnu : ∀ c ∈ sn.data, c ≠ '_') :
    splitOnChar '_' (splitextBase (mkTestNameNoSec sn ts).data) =
      [['i', 'n', 'v', 'e', 'r', 't', 'e', 'r'], sn.data, dateChars ts, timeNoSecChars ts] := by
  have heq : (mkTestNameNoSec sn ts).data =
      (['i', 'n', 'v', 'e', 'r', 't', 'e', 'r'] ++ '_' ::
        (sn.data ++ '_' :: (dateChars ts ++ '_' :: timeNoSecChars ts))) ++ ['.', 'c', 's', 'v'] := by
    simp [mkTestNameNoSec, invPrefix, List.append_assoc]
  rw [heq, splitextBase_append_csv _ (by simp)]
  rw [splitOnChar_append '_' ['i', 'n', 'v', 'e', 'r', 't', 'e', 'r'] _ (by decide)]
  rw [splitOnChar_append '_' sn.data _ hsnu]
  rw [splitOnChar_append '_' (dateChars ts) _
    (fun c hc => digit_or_dash_ne_underscore c (dateChars_chars ts hval c hc))]
  rw [splitOnChar_sepFree '_' (timeNoSecChars ts)
    (fun c hc => digit_or_dash_ne_underscore c (timeNoSecChars_chars ts hval c hc))]

/-- Polling-loop result parser on a seconds-present name: exact round trip. -/
lemma watchdog_results_sec_roundtrip (sn : String) (ts : Datetime)
    (hval : validDatetime ts = true) (hsn1 : sn.data ≠ [])
    (hsnu : ∀ c ∈ sn.data, c ≠ '_') (hsnn : ∀ c ∈ sn.data, c ≠ '\n') :
    Watchdog.parse_results_file (mkResultNameSec sn ts) = some (sn, ts) := by
  unfold Watchdog.parse_results_file
  rw [if_pos (resultsRegexSec_mkSec sn ts hval hsn1 hsnn)]
  simp only [parseResultSecBranch, parts_result_sec sn ts hval hsnu,
    List.getD_cons_zero, List.getD_cons_succ, strptime_sec_eval ts hval]

/-- Polling-loop result parser on a seconds-absent name: device recovered and
seconds default to zero. -/
lemma watchdog_results_nosec_roundtrip (sn : String) (ts : Datetime)
    (hval : validDatetime ts = true) (hsn1 : sn.data ≠ [])
    (hsnu : ∀ c ∈ sn.data, c ≠ '_') (hsnn : ∀ c ∈ sn.data, c ≠ '\n') :
    Watchdog.parse_results_file (mkResultNameNoSec sn ts) =
      some (sn, ⟨ts.year, ts.month, ts.day, ts.hour, ts.minute, 0⟩) := by
  unfold Watchdog.parse_results_file
  have hsec := resultsRegexSec_mkNoSec sn ts hval
  rw [if_neg (by rw [hsec]; decide)]
  rw [if_pos (resultsRegexNoSec_mkNoSec sn ts hval hsn1 hsnn)]
  simp only [parseResultNoSecBranch, parts_result_nosec sn ts hval hsnu,
    List.getD_cons_zero, List.getD_cons_succ, List.append_assoc, List.cons_append,
    strptime_nosec_eval ts hval]

/-- Batch result parser on a seconds-present name: exact round trip. -/
lemma copyf_results_sec_roundtrip (sn : String) (ts : Datetime)
    (hval : validDatetime ts = true) (hsn1 : sn.data ≠ [])
    (hsnu : ∀ c ∈ sn.data, c ≠ '_') (hsnn : ∀ c ∈ sn.data, c ≠ '\n') :
    CopyFiltered.parse_results_file (mkResultNameSec sn ts) = some (sn, ts) := by
  unfold CopyFiltered.parse_results_file
  rw [if_pos (resultsRegexSec_mkSec sn ts hval hsn1 hsnn)]
  simp only [parseResultSecBranch, parts_result_sec sn ts hval hsnu,
    List.getD_cons_zero, List.getD_cons_succ, strptime_sec_eval ts hval]

/-- Batch result parser rejects every seconds-absent name. -/
lemma copyf_results_nosec_none (sn : String) (ts : Datetime)
    (hval : validDatetime ts = true) :
    CopyFiltered.parse_results_file (mkResultNameNoSec sn ts) = none := by
  unfold CopyFiltered.parse_results_file
  have hsec := resultsRegexSec_mkNoSec sn ts hval
  rw [if_neg (by rw [hsec]; decide)]

/-- Polling-loop session parser on a seconds-present name: exact round trip. -/
lemma watchdog_test_sec_roundtrip (sn : String) (ts : Datetime)
    (hval : validDatetime ts = true) (hsn1 : sn.data ≠ [])
    (hsnu : ∀ c ∈ sn.data, c ≠ '_') (hsnn : ∀ c ∈ sn.data, c ≠ '\n') :
    Watchdog.parse_test_file (mkTestNameSec sn ts) = some (sn, ts) := by
  unfold Watchdog.parse_test_file
  rw [if_pos (testRegexSec_mkSec sn ts hval hsn1 hsnn)]
  simp only [parseTestSecBranch, parts_test_sec sn ts hval hsnu,
    List.getD_cons_zero, List.getD_cons_succ, strptime_sec_eval ts hval]

/-- Polling-loop session parser on a seconds-absent name: seconds default to
zero. -/
lemma watchdog_test_nosec_roundtrip (sn : String) (ts : Datetime)
    (hval : validDatetime ts = true) (hsn1 : sn.data ≠ [])
    (hsnu : ∀ c ∈ sn.data, c ≠ '_') (hsnn : ∀ c ∈ sn.data, c ≠ '\n') :
    Watchdog.parse_test_file (mkTestNameNoSec sn ts) =
      some (sn, ⟨ts.year, ts.month, ts.day, ts.hour, ts.minute, 0⟩) := by
  unfold Watchdog.parse_test_file
  have hsec := testRegexSec_mkNoSec sn ts hval
  rw [if_neg (by rw [hsec]; decide)]
  rw [if_pos (testRegexNoSec_mkNoSec sn ts hval hsn1 hsnn)]
  simp only [parseTestNoSecBranch, parts_test_nosec sn ts hval hsnu,
    List.getD_cons_zero, List.getD_cons_succ, List.append_assoc, List.cons_append,
    strptime_nosec_eval ts hval]

/-- Batch session parser on a seconds-absent name: seconds default to zero. -/
lemma copyf_test_nosec_roundtrip (sn : String) (ts : Datetime)
    (hval : validDatetime ts = true) (hsn1 : sn.data ≠ [])
    (hsnu : ∀ c ∈ sn.data, c ≠ '_') (hsnn : ∀ c ∈ sn.data, c ≠ '\n') :
    CopyFiltered.parse_test_file (mkTestNameNoSec sn ts) =
      some (sn, ⟨ts.year, ts.month, ts.day, ts.hour, ts.minute, 0⟩) := by
  unfold CopyFiltered.parse_test_file
  rw [if_pos (testRegexNoSec_mkNoSec sn ts hval hsn1 hsnn)]
  simp only [parseTestNoSecBranch, parts_test_nosec sn ts hval hsnu,
    List.getD_cons_zero, List.getD_cons_succ, List.append_assoc, List.cons_append,
    strptime_nosec_eval ts hval]

/-- Batch session parser rejects every seconds-present name. -/
lemma copyf_test_sec_none (sn : String) (ts : Datetime) (hval : validDatetime ts = true) :
    CopyFiltered.parse_test_file (mkTestNameSec sn ts) = none := by
  unfold CopyFiltered.parse_test_file
  have hsec := testRegexNoSec_mkSec sn ts hval
  rw [if_neg (by rw [hsec]; decide)]

/-! ## C5 -/

/-- C5 counterexample: the claim says both parsers accept the time field with
or without seconds in both scripts.  The batch variant accepts only one form
per parser: its result parser rejects a well-formed seconds-absent name that
the polling loop parses, and its session parser rejects a well-formed
seconds-present name that the polling loop parses. -/
theorem c5_batch_parsers_single_form :
    Watchdog.parse_results_file "DEV1_2025-07-20_10-00.csv" =
      some ("DEV1", ⟨2025, 7, 20, 10, 0, 0⟩) ∧
    CopyFiltered.parse_results_file "DEV1_2025-07-20_10-00.csv" = none ∧
    Watchdog.parse_test_file "inverter_DEV1_2025-07-18_09-00-30.csv" =
      some ("DEV1", ⟨2025, 7, 18, 9, 0, 30⟩) ∧
    CopyFiltered.parse_test_file "inverter_DEV1_2025-07-18_09-00-30.csv" = none := by
  refine ⟨by decide, by decide, by decide, by decide⟩

/-- C5 amended: for every well-formed filename (nonempty device identifier
with no underscore and no newline, calendar-valid timestamp), the polling
loop accepts both time forms in both parsers, with seconds defaulting to zero
when absent; the batch variant accepts only the seconds-present form in its
result parser and only the seconds-absent form in its session parser,
returning `None` for the other form. -/
theorem c5_dual_resolution_parsing (sn : String) (ts : Datetime)
    (hval : validDatetime ts = true) (hsn1 : sn.data ≠ [])
    (hsnu : ∀ c ∈ sn.data, c ≠ '_') (hsnn : ∀ c ∈ sn.data, c ≠ '\n') :
    Watchdog.parse_results_file (mkResultNameSec sn ts) = some (sn, ts) ∧
    Watchdog.parse_results_file (mkResultNameNoSec sn ts) =
      some (sn, ⟨ts.year, ts.month, ts.day, ts.hour, ts.minute, 0⟩) ∧
    Watchdog.parse_test_file (mkTestNameSec sn ts) = some (sn, ts) ∧
    Watchdog.parse_test_file (mkTestNameNoSec sn ts) =
      some (sn, ⟨ts.year, ts.month, ts.day, ts.hour, ts.minute, 0⟩) ∧
    CopyFiltered.parse_results_file (mkResultNameSec sn ts) = some (sn, ts) ∧
    CopyFiltered.parse_results_file (mkResultNameNoSec sn ts) = none ∧
    CopyFiltered.parse_test_file (mkTestNameNoSec sn ts) =
      some (sn, ⟨ts.year, ts.month, ts.day, ts.hour, ts.minute, 0⟩) ∧
    CopyFiltered.parse_test_file (mkTestNameSec sn ts) = none :=
  ⟨watchdog_results_sec_roundtrip sn ts hval hsn1 hsnu hsnn,
   watchdog_results_nosec_roundtrip sn ts hval hsn1 hsnu hsnn,
   watchdog_test_sec_roundtrip sn ts hval hsn1 hsnu hsnn,
   watchdog_test_nosec_roundtrip sn ts hval hsn1 hsnu hsnn,
   copyf_results_sec_roundtrip sn ts hval hsn1 hsnu hsnn,
   copyf_results_nosec_none sn ts hval,
   copyf_test_nosec_roundtrip sn ts hval hsn1 hsnu hsnn,
   copyf_test_sec_none sn ts hval⟩

/-- C5 witness at a concrete identifier and timestamp. -/
theorem c5_dual_resolution_parsing_witness :
    (validDatetime ⟨2025, 7, 20, 10, 30, 45⟩ = true ∧ ("DEV1" : String).data ≠ [] ∧
      (∀ c ∈ ("DEV1" : String).data, c ≠ '_') ∧
      (∀ c ∈ ("DEV1" : String).data, c ≠ '\n')) ∧
    (Watchdog.parse_results_file (mkResultNameSec "DEV1" ⟨2025, 7, 20, 10, 30, 45⟩) =
      some ("DEV1", ⟨2025, 7, 20, 10, 30, 45⟩) ∧
    Watchdog.parse_results_file (mkResultNameNoSec "DEV1" ⟨2025, 7, 20, 10, 30, 45⟩) =
      some ("DEV1", ⟨2025, 7, 20, 10, 30, 0⟩) ∧
    Watchdog.parse_test_file (mkTestNameSec "DEV1" ⟨2025, 7, 20, 10, 30, 45⟩) =
      some ("DEV1", ⟨2025, 7, 20, 10, 30, 45⟩) ∧
    Watchdog.parse_test_file (mkTestNameNoSec "DEV1" ⟨2025, 7, 20, 10, 30, 45⟩) =
      some ("DEV1", ⟨2025, 7, 20, 10, 30, 0⟩) ∧
    CopyFiltered.parse_results_file (mkResultNameSec "DEV1" ⟨2025, 7, 20, 10, 30, 45⟩) =
      some ("DEV1", ⟨2025, 7, 20, 10, 30, 45⟩) ∧
    CopyFiltered.parse_results_file (mkResultNameNoSec "DEV1" ⟨2025, 7, 20, 10, 30, 45⟩) = none ∧
    CopyFiltered.parse_test_file (mkTestNameNoSec "DEV1" ⟨2025, 7, 20, 10, 30, 45⟩) =
      some ("DEV1", ⟨2025, 7, 20, 10, 30, 0⟩) ∧
    CopyFiltered.parse_test_file (mkTestNameSec "DEV1" ⟨2025, 7, 20, 10, 30, 45⟩) = none) :=
  ⟨⟨by decide, by decide, by decide, by decide⟩,
   c5_dual_resolution_parsing "DEV1" ⟨2025, 7, 20, 10, 30, 45⟩
     (by decide) (by decide) (by decide) (by decide)⟩

/-! ## C6 -/

/-- C6 counterexample: a device identifier containing an underscore breaks
the round trip.  The regex group `(.+)` matches the full stem `A_B`, but both
result parsers then re-derive the fields by `base.split('_')` and take
`parts[0]`, `parts[1]`, `parts[2]`, which misalign: `strptime` fails on the
shifted parts and the parsers return `None` instead of recovering
`("A_B", 2025-07-20 10:00:00)`. -/
theorem c6_underscore_device_id_breaks_roundtrip :
    mkResultNameSec "A_B" ⟨2025, 7, 20, 10, 0, 0⟩ = "A_B_2025-07-20_10-00-00.csv" ∧
    Watchdog.parse_results_file "A_B_2025-07-20_10-00-00.csv" = none ∧
    CopyFiltered.parse_results_file "A_B_2025-07-20_10-00-00.csv" = none := by
  refine ⟨by decide, by decide, by decide⟩

/-- C6 amended: the result-filename codec round-trips for every nonempty
device identifier containing no underscore and no newline and every
calendar-valid timestamp: the polling-loop parser recovers identifier and
timestamp exactly from the seconds-present form, and from the seconds-absent
form whenever the timestamp has zero seconds (the only timestamps that form
can encode); the batch parser round-trips the seconds-present form. -/
theorem c6_codec_roundtrip (sn : String) (ts : Datetime)
    (hval : validDatetime ts = true) (hsn1 : sn.data ≠ [])
    (hsnu : ∀ c ∈ sn.data, c ≠ '_') (hsnn : ∀ c ∈ sn.data, c ≠ '\n') :
    Watchdog.parse_results_file (mkResultNameSec sn ts) = some (sn, ts) ∧
    (ts.second = 0 → Watchdog.parse_results_file (mkResultNameNoSec sn ts) = some (sn, ts)) ∧
    CopyFiltered.parse_results_file (mkResultNameSec sn ts) = some (sn, ts) := by
  refine ⟨watchdog_results_sec_roundtrip sn ts hval hsn1 hsnu hsnn, ?_,
    copyf_results_sec_roundtrip sn ts hval hsn1 hsnu hsnn⟩
  intro hs0
  rw [watchdog_results_nosec_roundtrip sn ts hval hsn1 hsnu hsnn, ← hs0]

/-- C6 witness at a concrete identifier and zero-second timestamp. -/
theorem c6_codec_roundtrip_witness :
    (validDatetime ⟨2025, 7, 20, 10, 0, 0⟩ = true ∧ ("DEV1" : String).data ≠ [] ∧
      (∀ c ∈ ("DEV1" : String).data, c ≠ '_') ∧
      (∀ c ∈ ("DEV1" : String).data, c ≠ '\n') ∧
      (⟨2025, 7, 20, 10, 0, 0⟩ : Datetime).second = 0) ∧
    Watchdog.parse_results_file (mkResultNameSec "DEV1" ⟨2025, 7, 20, 10, 0, 0⟩) =
      some ("DEV1", ⟨2025, 7, 20, 10, 0, 0⟩) ∧
    Watchdog.parse_results_file (mkResultNameNoSec "DEV1" ⟨2025, 7, 20, 10, 0, 0⟩) =
      some ("DEV1", ⟨2025, 7, 20, 10, 0, 0⟩) ∧
    CopyFiltered.parse_results_file (mkResultNameSec "DEV1" ⟨2025, 7, 20, 10, 0, 0⟩) =
      some ("DEV1", ⟨2025, 7, 20, 10, 0, 0⟩) :=
  ⟨⟨by decide, by decide, by decide, by decide, rfl⟩,
   (c6_codec_roundtrip "DEV1" ⟨2025, 7, 20, 10, 0, 0⟩
     (by decide) (by decide) (by decide) (by decide)).1,
   (c6_codec_roundtrip "DEV1" ⟨2025, 7, 20, 10, 0, 0⟩
     (by decide) (by decide) (by decide) (by decide)).2.1 rfl,
   (c6_codec_roundtrip "DEV1" ⟨2025, 7, 20, 10, 0, 0⟩
     (by decide) (by decide) (by decide) (by decide)).2.2⟩
